import Mathlib

/-!
Verification of the numerical simulation engine of the Markov-chain /
wealth-dynamics teaching tool.

The engine is embedded shallowly over exact rationals: JavaScript numbers
are idealised as elements of ℚ, arrays as Lean lists, and in-place updates
as functional updates.  Every definition below is a direct translation of
the corresponding source function (the Markov service module and the wealth
dynamics module); names are kept identical to the source where Lean allows.
-/

namespace Engine

abbrev Vec := List ℚ
abbrev Matrix := List (List ℚ)

def STATES_COUNT : ℕ := 5

/-- Source: `cloneMatrix` — a deep copy; in the pure embedding it is the
identity on matrices. -/
def cloneMatrix (m : Matrix) : Matrix := m.map (fun row => row)

/-- Source: `normalizeRow` — divides each entry by the row sum, returning the
row unchanged when the sum is exactly 0. -/
def normalizeRow (row : Vec) : Vec :=
  let s := row.sum
  if s = 0 then row else row.map (fun v => v / s)

/-- Source: `multiplyVectorMatrix` — row-vector times matrix,
`result[j] = Σ_i v[i] * m[i][j]`, with both loops bounded by `v.length`. -/
def multiplyVectorMatrix (v : Vec) (m : Matrix) : Vec :=
  (List.range v.length).map (fun j =>
    ((List.range v.length).map (fun i => v.getD i 0 * ((m.getD i []).getD j 0))).sum)

/-- Source: pivot search inside `solveLinearSystem` — the first row index
`j ≥ i` maximising `|M[j][i]|` (strict improvement moves the pivot). -/
def pivotSearch (M : Matrix) (i : ℕ) : ℕ :=
  (List.range' (i + 1) (M.length - (i + 1))).foldl
    (fun p j => if |(M.getD j []).getD i 0| > |(M.getD p []).getD i 0| then j else p) i

/-- Source: the destructuring swap `[M[i], M[p]] = [M[p], M[i]]`. -/
def swapRows (M : Matrix) (i p : ℕ) : Matrix :=
  let ri := M.getD i []
  let rp := M.getD p []
  (M.set i rp).set p ri

/-- Source: one iteration of the forward-elimination loop of
`solveLinearSystem`: pivot selection, swap, the `|pivot| < 1e-10` singularity
skip, normalisation of columns `j ≥ i` of the pivot row, and elimination of
column `i` from every other row (columns `j ≥ i` only). -/
def elimStep (n : ℕ) (M : Matrix) (i : ℕ) : Matrix :=
  let p := pivotSearch M i
  let M1 := swapRows M i p
  let pivotVal := (M1.getD i []).getD i 0
  if |pivotVal| < 1 / 10 ^ 10 then M1 else
  let M2 := M1.set i ((M1.getD i []).mapIdx (fun j x => if i ≤ j then x / pivotVal else x))
  (List.range n).foldl
    (fun Mc k =>
      if k = i then Mc else
      let factor := (Mc.getD k []).getD i 0
      Mc.set k ((Mc.getD k []).mapIdx
        (fun j x => if i ≤ j then x - factor * ((M2.getD i []).getD j 0) else x)))
    M2

/-- Source: `solveLinearSystem` — Gaussian elimination with partial pivoting
on the augmented matrix `[A | b]`, returning the final augmented column. -/
def solveLinearSystem (A : Matrix) (b : Vec) : Vec :=
  let n := A.length
  let M0 : Matrix := A.mapIdx (fun i row => row ++ [b.getD i 0])
  let M := (List.range n).foldl (fun M i => elimStep n M i) M0
  M.map (fun row => row.getD n 0)

/-- Source: `calculateSteadyState` — builds `A = Pᵗ − I`, replaces the last
row with all ones and the last right-hand side entry with 1, and solves. -/
def calculateSteadyState (matrix : Matrix) : Vec :=
  let n := matrix.length
  let A : Matrix := (List.range n).map (fun i => (List.range n).map (fun j =>
    if i = n - 1 then 1 else (matrix.getD j []).getD i 0 - if i = j then 1 else 0))
  let b : Vec := (List.range n).map (fun i => if i = n - 1 then 1 else 0)
  solveLinearSystem A b

/-- Source: `calculateExpectedValue` — `Σ_i dist[i] * i`. -/
def calculateExpectedValue (dist : Vec) : ℚ :=
  ((List.range dist.length).map (fun i => dist.getD i 0 * i)).sum

/-- Source: `createBaselineMatrix` — the hard-coded baseline transition
matrix, rows passed through `normalizeRow`. -/
def createBaselineMatrix : Matrix :=
  [[9/10, 9/100, 1/100, 0, 0],
   [15/100, 7/10, 14/100, 1/100, 0],
   [1/100, 2/10, 6/10, 18/100, 1/100],
   [0, 5/100, 2/10, 6/10, 15/100],
   [0, 0, 1/10, 4/10, 5/10]].map normalizeRow

/-- Source: `updateMatrixProbability` — clamps the new value to `[0,1]`,
returns the clone unchanged if the value is unchanged, otherwise rescales the
rest of the row (proportionally when `1 − oldValue > 0.0001`, evenly
otherwise) and normalises the row. -/
def updateMatrixProbability (matrix : Matrix) (rowIdx colIdx : ℕ) (nv : ℚ) : Matrix :=
  let row := matrix.getD rowIdx []
  let oldValue := row.getD colIdx 0
  let newValue := max 0 (min 1 nv)
  if oldValue = newValue then cloneMatrix matrix else
  let row1 := row.set colIdx newValue
  let currentRestSum := 1 - oldValue
  let row2 :=
    if currentRestSum > 1 / 10 ^ 4 then
      let scaleFactor := (1 - newValue) / currentRestSum
      (List.range row1.length).map
        (fun j => if j = colIdx then row1.getD j 0 else row1.getD j 0 * scaleFactor)
    else
      let remainder := 1 - newValue
      let targets := row1.length - 1
      if 0 < targets then
        (List.range row1.length).map
          (fun j => if j = colIdx then row1.getD j 0 else remainder / (targets : ℚ))
      else row1
  (cloneMatrix matrix).set rowIdx (normalizeRow row2)

/-- Source: `applyMicroHabit` — for each state `i`: add the impact factor to
the upward (or top self-loop) entry, clamp-subtract it from the downward (or
bottom self-loop) entry, then normalise every row.  Each loop iteration only
touches row `i`. -/
def applyMicroHabit (baseMatrix : Matrix) (impactFactor : ℚ) : Matrix :=
  ((List.range STATES_COUNT).foldl (fun m i =>
    let row := m.getD i []
    let row1 := if i < STATES_COUNT - 1 then row.set (i+1) (row.getD (i+1) 0 + impactFactor) else row
    let row2 := if i = STATES_COUNT - 1 then row1.set i (row1.getD i 0 + impactFactor) else row1
    let row3 := if 0 < i then row2.set (i-1) (max 0 (row2.getD (i-1) 0 - impactFactor))
                else row2.set i (max 0 (row2.getD i 0 - impactFactor))
    m.set i row3) baseMatrix).map normalizeRow

/-- The distribution reached from `v` after `n` applications of the matrix;
used to state what the iteration loops of the source compute. -/
def iterMul (m : Matrix) : ℕ → Vec → Vec
  | 0, v => v
  | n + 1, v => iterMul m n (multiplyVectorMatrix v m)

/-- Source: the body of the `for (t = 1; t < 5000; t++)` loop of
`calculateMixingTime`, as a structurally recursive function on the remaining
iteration count (`fuel = 5000 − t`). -/
def mixGo (matrix : Matrix) : ℕ → ℕ → Vec → ℕ
  | 0, _, _ => 5000
  | fuel + 1, t, dist =>
    let dist2 := multiplyVectorMatrix dist matrix
    let change := ((List.range STATES_COUNT).map
      (fun i => |dist2.getD i 0 - dist.getD i 0|)).sum
    if change < 1 / 10 ^ 5 then t else mixGo matrix fuel (t + 1) dist2

/-- Source: `calculateMixingTime` — iterate from the one-hot vector at state
0, returning the first `t ∈ [1, 4999]` whose L1 change falls below `1e-5`,
and `5000` when the loop runs out. -/
def calculateMixingTime (matrix : Matrix) : ℕ :=
  mixGo matrix 4999 1 [1, 0, 0, 0, 0]

/-- Source: `estimateSpectralGap` — the reciprocal of the mixing time, with a
zero guard. -/
def estimateSpectralGap (mixingTime : ℕ) : ℚ :=
  if mixingTime = 0 then 0 else 1 / (mixingTime : ℚ)

structure SimulationConfig where
  years : ℕ
  impactFactor : ℚ
  initialState : ℕ
deriving DecidableEq

structure SimulationStep where
  day : ℕ
  baselineExpectedValue : ℚ
  habitExpectedValue : ℚ
  baselineDist : Vec
  habitDist : Vec
deriving DecidableEq

structure SimulationResult where
  timeline : List SimulationStep
  baselineFinalDist : Vec
  habitFinalDist : Vec
  baselineMatrix : Matrix
  habitMatrix : Matrix
  mixingTime : ℕ
  spectralGap : ℚ
  probabilityImprovement : ℚ
  steadyState : Vec

/-- Source: the body of the day loop of `runSimulation`: sample when
`t % sampleRate = 0` or `t = days`, then advance both distributions while
`t < days`. -/
def simStep (Pb Ph : Matrix) (days rate : ℕ)
    (st : Vec × Vec × List SimulationStep) (t : ℕ) : Vec × Vec × List SimulationStep :=
  let vb := st.1
  let vh := st.2.1
  let acc := st.2.2
  let acc2 := if t % rate = 0 ∨ t = days then
      acc ++ [⟨t, calculateExpectedValue vb, calculateExpectedValue vh, vb, vh⟩]
    else acc
  if t < days then (multiplyVectorMatrix vb Pb, multiplyVectorMatrix vh Ph, acc2)
  else (vb, vh, acc2)

/-- The day loop of `runSimulation`: fold `simStep` over `t = 0, …, days`
starting from the one-hot start vector on both tracks. -/
def simulationLoop (Pb Ph : Matrix) (days rate : ℕ) (sv : Vec) :
    Vec × Vec × List SimulationStep :=
  (List.range (days + 1)).foldl (simStep Pb Ph days rate) (sv, sv, [])

/-- Source: `runSimulation` — builds the baseline and habit matrices, runs
the sampled day loop, and assembles the result record. -/
def runSimulation (config : SimulationConfig) (customMatrix : Option Matrix) :
    SimulationResult :=
  let days := config.years * 365
  let P_baseline := createBaselineMatrix
  let P_habit := match customMatrix with
    | some m => cloneMatrix m
    | none => applyMicroHabit P_baseline config.impactFactor
  let startVector : Vec :=
    (List.range STATES_COUNT).map (fun i => if i = config.initialState then 1 else 0)
  let sampleRate : ℕ := if days > 7000 then 60 else if days > 2000 then 30 else 7
  let fin := simulationLoop P_baseline P_habit days sampleRate startVector
  let mixingTime := calculateMixingTime P_habit
  let spectralGap := estimateSpectralGap mixingTime
  let steadyState := calculateSteadyState P_habit
  let probImprovement :=
    ((fin.2.1.getD 4 0 - fin.1.getD 4 0) / max (fin.1.getD 4 0) (1 / 10 ^ 4)) * 100
  ⟨fin.2.2, fin.1, fin.2.1, P_baseline, P_habit, mixingTime, spectralGap,
    probImprovement, steadyState⟩

structure PathConfig where
  effort : ℚ
  risk : ℚ
  isAbsorbing : Bool
deriving DecidableEq

structure PathResult where
  matrix : Matrix
  finalDist : Vec
  expectedStepsToAbsorb : Option ℚ
  absorptionProbabilities : Option Vec
deriving DecidableEq

/-- Source: `generateParametricMatrix` — from the baseline matrix, lock the
top row when absorbing, shift stay-probability upward by effort, add the
risk leap/fall mass with zero clamps, and normalise each row. -/
def generateParametricMatrix (config : PathConfig) : Matrix :=
  let base := createBaselineMatrix
  (List.range STATES_COUNT).map (fun i =>
    if config.isAbsorbing = true ∧ i = STATES_COUNT - 1 then [0, 0, 0, 0, 1]
    else
      let row0 := base.getD i []
      let rowA := if i < STATES_COUNT - 1 then
          let shift := config.effort * row0.getD i 0 * (8/10)
          let ra := row0.set i (row0.getD i 0 - shift)
          ra.set (i+1) (ra.getD (i+1) 0 + shift)
        else row0
      let riskFactor := config.risk * (3/10)
      let rowB := if i < STATES_COUNT - 2 then
          let rb := rowA.set (i+2) (rowA.getD (i+2) 0 + riskFactor)
          let rb2 := rb.set i (max 0 (rb.getD i 0 - riskFactor / 2))
          rb2.set (i+1) (max 0 (rb2.getD (i+1) 0 - riskFactor / 2))
        else rowA
      let rowC := if 0 < i then
          let rc := rowB.set (i-1) (rowB.getD (i-1) 0 + riskFactor)
          rc.set i (max 0 (rc.getD i 0 - riskFactor))
        else rowB
      normalizeRow rowC)

/-- Source: the sub-stochastic block `Q` of `calculateTimeToAbsorption` —
`matrix[i].slice(0, 4)` for the four transient states. -/
def transientQ (matrix : Matrix) : Matrix :=
  (List.range 4).map (fun i => (matrix.getD i []).take 4)

/-- Source: the system matrix `A = I − Q` of `calculateTimeToAbsorption`. -/
def fundamentalLHS (matrix : Matrix) : Matrix :=
  (List.range 4).map (fun i => (List.range 4).map (fun j =>
    (if i = j then 1 else 0) - ((transientQ matrix).getD i []).getD j 0))

/-- Source: `calculateTimeToAbsorption` — `none` when `P[4][4] < 0.99`,
otherwise solve `(I − Q) t = 1` over the four transient states and return
`t[0]`. -/
def calculateTimeToAbsorption (matrix : Matrix) : Option ℚ :=
  if (matrix.getD 4 []).getD 4 0 < 99/100 then none else
  some ((solveLinearSystem (fundamentalLHS matrix) (List.replicate 4 1)).getD 0 0)

/-- Source: `runPathSimulation` — the parametric matrix, the heuristic
absorption time, and the long-run distribution (500 iterated steps from the
bottom one-hot vector when absorbing, else the stationary solver). -/
def runPathSimulation (config : PathConfig) : PathResult :=
  let matrix := generateParametricMatrix config
  let expectedSteps := calculateTimeToAbsorption matrix
  let finalDist := if config.isAbsorbing then iterMul matrix 500 [1, 0, 0, 0, 0]
    else calculateSteadyState matrix
  ⟨matrix, finalDist, expectedSteps, none⟩

/-! ## Wealth dynamics module (capital accumulation) -/

inductive EqType
  | Stable
  | Unstable
deriving DecidableEq

structure Equilibrium where
  k : ℚ
  type : EqType
deriving DecidableEq

/-- Configuration of the wealth model.  The shape parameter `gamma` is a
natural number (the engine defaults use `gamma = 3`), so `Math.pow` is exact
iterated multiplication. -/
structure WealthConfig where
  A : ℚ
  s : ℚ
  H : ℚ
  gamma : ℕ
  delta : ℚ
  sigma : ℚ
  initialK : ℚ
deriving DecidableEq

/-- The default wealth configuration of the application
(`A=8, s=0.2, H=10, gamma=3, delta=0.1, sigma=0.5, initialK=8`). -/
def defaultWealthConfig : WealthConfig :=
  ⟨8, 2/10, 10, 3, 1/10, 5/10, 8⟩

/-- Source: `nextK` without noise — the deterministic capital map
`max 0 (k − δ·k + s·A·k^γ/(H^γ + k^γ))`. -/
def nextK (k : ℚ) (config : WealthConfig) : ℚ :=
  let production := config.s * config.A *
    (k ^ config.gamma / (config.H ^ config.gamma + k ^ config.gamma))
  let depreciation := config.delta * k
  max 0 (k - depreciation + production)

/-- Source: the `netGrowth` helper inside `findEquilibria` —
`production(k) − δ·k`. -/
def netGrowth (config : WealthConfig) (k : ℚ) : ℚ :=
  let prod := config.s * config.A *
    (k ^ config.gamma / (config.H ^ config.gamma + k ^ config.gamma))
  prod - config.delta * k

/-- Source: `Math.sign` — −1, 0 or 1. -/
def sgn (q : ℚ) : Int := if q < 0 then -1 else if q = 0 then 0 else 1

/-- Source: the 20-iteration bisection refinement inside `findEquilibria`. -/
def bisect (config : WealthConfig) : ℕ → ℚ → ℚ → ℚ × ℚ
  | 0, low, high => (low, high)
  | n + 1, low, high =>
    let mid := (low + high) / 2
    if netGrowth config mid * netGrowth config low < 0 then bisect config n low mid
    else bisect config n mid high

/-- Source: one iteration of the scan loop of `findEquilibria` at
`k = (j+1)/10`, carrying the previous sign and the equilibria found so far. -/
def scanStep (config : WealthConfig) (st : Int × List Equilibrium) (j : ℕ) :
    Int × List Equilibrium :=
  let k : ℚ := (j + 1) / 10
  let prevSign := st.1
  let currentSign := sgn (netGrowth config k)
  if currentSign ≠ prevSign then
    let lh := bisect config 20 (k - 1/10) k
    let rootK := (lh.1 + lh.2) / 2
    let isStable : Bool :=
      netGrowth config (rootK - 1/100) > 0 ∧ netGrowth config (rootK + 1/100) < 0
    (currentSign, st.2 ++ [⟨rootK, if isStable then EqType.Stable else EqType.Unstable⟩])
  else (prevSign, st.2)

/-- Source: `findEquilibria` — zero is always recorded (tagged `Stable`),
then the scan over `k = 0.1, 0.2, …, 50` detects sign changes of `netGrowth`
and refines each bracketed root by bisection. -/
def findEquilibria (config : WealthConfig) : List Equilibrium :=
  let init : Int × List Equilibrium :=
    (sgn (netGrowth config (1/100)), [⟨0, EqType.Stable⟩])
  ((List.range 500).foldl (scanStep config) init).2

/-!
## Kernel-reducible evaluation layer

`Rat` addition and multiplication are `@[irreducible]`, so long concrete
computations are carried out with `mkRat`-based clones, proved equal to the
field operations, and transported back.
-/

/-- `qadd a b = a + b` (proved below); stated via `mkRat` so that it reduces. -/
def qadd (a b : ℚ) : ℚ := mkRat (a.num * b.den + b.num * a.den) (a.den * b.den)

/-- `qmul a b = a * b` (proved below); stated via `mkRat` so that it reduces. -/
def qmul (a b : ℚ) : ℚ := mkRat (a.num * b.num) (a.den * b.den)

/-- Reducible clone of `multiplyVectorMatrix`. -/
def vmulQ (v : Vec) (m : Matrix) : Vec :=
  (List.range v.length).map (fun j =>
    ((List.range v.length).map
      (fun i => qmul (v.getD i 0) ((m.getD i []).getD j 0))).foldr qadd 0)

/-- Reducible clone of `iterMul`. -/
def iterMulQ (m : Matrix) : ℕ → Vec → Vec
  | 0, v => v
  | n + 1, v => iterMulQ m n (vmulQ v m)

theorem qadd_eq (a b : ℚ) : qadd a b = a + b := by
  rw [qadd, Rat.mkRat_eq_divInt, Rat.divInt_eq_div]
  have ha : ((a.den : ℤ) : ℚ) ≠ 0 := by
    exact_mod_cast Nat.cast_ne_zero.mpr a.den_nz
  have hb : ((b.den : ℤ) : ℚ) ≠ 0 := by
    exact_mod_cast Nat.cast_ne_zero.mpr b.den_nz
  conv_rhs => rw [← Rat.num_div_den a, ← Rat.num_div_den b]
  push_cast
  field_simp

theorem qmul_eq (a b : ℚ) : qmul a b = a * b := by
  rw [qmul, Rat.mkRat_eq_divInt, Rat.divInt_eq_div]
  have ha : ((a.den : ℤ) : ℚ) ≠ 0 := by
    exact_mod_cast Nat.cast_ne_zero.mpr a.den_nz
  have hb : ((b.den : ℤ) : ℚ) ≠ 0 := by
    exact_mod_cast Nat.cast_ne_zero.mpr b.den_nz
  conv_rhs => rw [← Rat.num_div_den a, ← Rat.num_div_den b]
  push_cast
  field_simp

theorem foldr_qadd_eq (l : List ℚ) : l.foldr qadd 0 = l.sum := by
  induction l with
  | nil => simp
  | cons a l ih => simp [List.foldr_cons, ih, qadd_eq]

theorem vmulQ_eq (v : Vec) (m : Matrix) : vmulQ v m = multiplyVectorMatrix v m := by
  unfold vmulQ multiplyVectorMatrix
  refine List.map_congr_left (fun j _ => ?_)
  rw [foldr_qadd_eq]
  refine congrArg List.sum (List.map_congr_left (fun i _ => ?_))
  rw [qmul_eq]

theorem iterMulQ_eq (m : Matrix) : ∀ (n : ℕ) (v : Vec), iterMulQ m n v = iterMul m n v
  | 0, _ => rfl
  | n + 1, v => by rw [iterMulQ, iterMul, vmulQ_eq, iterMulQ_eq m n]

theorem iterMulQ_add (m : Matrix) (a : ℕ) :
    ∀ (b : ℕ) (v : Vec), iterMulQ m (a + b) v = iterMulQ m a (iterMulQ m b v)
  | 0, _ => rfl
  | b + 1, v => by
    rw [iterMulQ, show a + (b + 1) = (a + b) + 1 from rfl, iterMulQ, iterMulQ_add m a b]

/-- The distribution of the absorbing path simulation (effort 0, risk 0) after 100 steps, computed exactly. -/
def c4d100 : Vec := [mkRat 14700807393289316876666530288921684743877391111483823890646262201776193891315833107997098278670735182991616524755812749241020786833086898668112459314479179727134933665933158977427215887580075505501621 (10 ^ 200), mkRat 4098264713224141580716612739128435542082391244998616215746528041239490965852653614466288335862994181890393941258095553444039006992454898105835662362645784433390183296269632933875809181384168985334277 50000000000000000000000000000000000000000000000000000000000000000000000000000000000000000000000000000000000000000000000000000000000000000000000000000000000000000000000000000000000000000000000000000000, mkRat 2276427072188045889075858659701749076220876851166982201099529769789908517386462244494383232060457086893612089316393636959477097976361466214726831877158265038906257196630304206417389019664469327205641 50000000000000000000000000000000000000000000000000000000000000000000000000000000000000000000000000000000000000000000000000000000000000000000000000000000000000000000000000000000000000000000000000000000, mkRat 2331026534707756085661422613949575697913903610861433086499155437174826483401765048159814400169194467016618061296121815066258553338746101944925278879475364474608436558648369877924728508162094917496827 (10 ^ 200), mkRat 17554695625294638024521776074867092580400542271330886547290616684747545164701042531480436046328291953105938338199771763721422112472633567686459318331609339213415937197404649216015414800540138237980429 25000000000000000000000000000000000000000000000000000000000000000000000000000000000000000000000000000000000000000000000000000000000000000000000000000000000000000000000000000000000000000000000000000000]
/-- The distribution of the absorbing path simulation (effort 0, risk 0) after 200 steps, computed exactly. -/
def c4d200 : Vec := [mkRat 193270426631390450989882729354070298817026053458242820442853867157893985993985915255710673359084239068115705082073170085370990282531902004563190180682134835273754852720820688880864487177892155032193060047763827906280273604806857730255557916159247673321431188326322243748593897814359832110548254442825122349782670683082874683159749846126993527131826741675037440236672744015387723984165021587406510287 5000000000000000000000000000000000000000000000000000000000000000000000000000000000000000000000000000000000000000000000000000000000000000000000000000000000000000000000000000000000000000000000000000000000000000000000000000000000000000000000000000000000000000000000000000000000000000000000000000000000000000000000000000000000000000000000000000000000000000000000000000000000000000000000000000000000000000, mkRat 107759172107885758063186025807415697473010918668161897167031963675976672182478519156317036432986548007750372605258713877185048418003234227998428295299447358612961276859211529872983622488597079114883336956880828158997696328971978680511630603390526912435647096995348475949583577756146081367705274571279112671667839044557123802363797548888975737482673676512570869772645794943677517267551562164710590601 5000000000000000000000000000000000000000000000000000000000000000000000000000000000000000000000000000000000000000000000000000000000000000000000000000000000000000000000000000000000000000000000000000000000000000000000000000000000000000000000000000000000000000000000000000000000000000000000000000000000000000000000000000000000000000000000000000000000000000000000000000000000000000000000000000000000000000, mkRat 11971208515100701484248924079338888800914833296853749821174900421589665958751933940673203750186930630447346055803327640847297698186363417455420520764664652861324918872889733490635137447040569760120705841630188665854471382335475433860408412450190554305910965216184432557312576080173461575434568437701851603238123427844081797728321248943391741622591702324446115329547998382735300275505859506865782519 (10 ^ 399), mkRat 12258335039434038747723080856729269174803657433866148030074207306203716074778321390608176895521449353174812232907959296595685010920138812606639624158321019150318748230900431313545595789906288433297068953116286499407303483827038434079657989684680952571243976136054385290630977542602453388480840373140195526698747369150293600581750380014374996022262609890331862106168170111163796733255864170629047809 2000000000000000000000000000000000000000000000000000000000000000000000000000000000000000000000000000000000000000000000000000000000000000000000000000000000000000000000000000000000000000000000000000000000000000000000000000000000000000000000000000000000000000000000000000000000000000000000000000000000000000000000000000000000000000000000000000000000000000000000000000000000000000000000000000000000000000, mkRat 9216937042173270373312757844599992773536759435609322326418108297585343443685660184816171658436381872777920322902763159183436520562465399297289359719598583987861724810956536071018224427247084391938154802808827368713862828889952380669463248887975140522570513896514542308577364400344241290346743055729072036291224009420527717048760940820462269074433769090928662916155042087698697531075228916573962733989 (10 ^ 400)]
/-- The distribution of the absorbing path simulation (effort 0, risk 0) after 300 steps, computed exactly. -/
def c4d300 : Vec := [mkRat 10163648327716674591809840772213951633962272724538757779565121787788265893250737538517951541255898534563698816971976469302083653892954649901451318239642259114846252066643631661849063186766938382164464865031686406862338766664391211094953787893688187163224589551830674248104556756160042379114745289721294097150233631435442301118213000800979186881575320551809920122375890622176809114016173242371697336334330023324332353168015632910093314084273096351111709667148582522522041335258346896255727889305973998886770002707022603295411780438588065726064651925920811635241187978221431759176246712761389303602097 (10 ^ 600), mkRat 354175477231473118379855722621362176932234622795604535916158816026078788796703355777411772955653006243626176488577798053842720336984503340892018006300466231047041997437915357979483194598382365401713643080291329530354729293219728274319803638951936470861452103707121030887792677893609395200979739158208432392608617176845994458160250304978875877607494724965130081766668578061945207845722252576854863916191875060584164540264992561408167437040821129026639120485465639479067884312182923122721729052274746082184917368654915727221090443828710111862828960625312054202714957670281079229446945091928611258681 62500000000000000000000000000000000000000000000000000000000000000000000000000000000000000000000000000000000000000000000000000000000000000000000000000000000000000000000000000000000000000000000000000000000000000000000000000000000000000000000000000000000000000000000000000000000000000000000000000000000000000000000000000000000000000000000000000000000000000000000000000000000000000000000000000000000000000000000000000000000000000000000000000000000000000000000000000000000000000000000000000000000000000000000000000000000000000000000000000000000000000000000000000000000000000000000000000000000000000000000, mkRat 786922988723110524458486413545119012609519265079909892662105672639539656241744018789059866701384713008156968188985993138917685887232111532204682483647824564095543392191875860573246906963150858854100137058416107927634373819449436236785281067110732908845374690141366529875311413287077307722255204753870106360890112591958956444842335636981626614911992678634837541231633711913088646529818624769609298752807688460265365541614011340101629139055029759765362483537875252781150632103833697925700639437064720691642805776963003602217324609204488326789483057735124526857572717512953924513975163690671463133029 250000000000000000000000000000000000000000000000000000000000000000000000000000000000000000000000000000000000000000000000000000000000000000000000000000000000000000000000000000000000000000000000000000000000000000000000000000000000000000000000000000000000000000000000000000000000000000000000000000000000000000000000000000000000000000000000000000000000000000000000000000000000000000000000000000000000000000000000000000000000000000000000000000000000000000000000000000000000000000000000000000000000000000000000000000000000000000000000000000000000000000000000000000000000000000000000000000000000000000000000, mkRat 402898572597435765067246544753597779568470519728332368917365898215718928922263786270878973007828350486351637295128114716633559769633722361316636556151687888032506737394419007066494353231344268802579343808394158045242522890438343963654542124586138721892227039720217282236737023790056357531785451266224518770662972939463107899473079100019034397503408792145783063283831618141263880794360099786956538821512944779986062971218031455304090045808895991356446798536507661499770003543899300222705525805081624609544003806301999535729002151614080695760902684755049874493639566885098788283021227316345064246011 250000000000000000000000000000000000000000000000000000000000000000000000000000000000000000000000000000000000000000000000000000000000000000000000000000000000000000000000000000000000000000000000000000000000000000000000000000000000000000000000000000000000000000000000000000000000000000000000000000000000000000000000000000000000000000000000000000000000000000000000000000000000000000000000000000000000000000000000000000000000000000000000000000000000000000000000000000000000000000000000000000000000000000000000000000000000000000000000000000000000000000000000000000000000000000000000000000000000000000000000, mkRat 979410257791297570356009535832649386366410014171498600599458450872373439145345977548803704732616801111560247937274322330414227838087829961070191117500352231379888875456004543139920240658880963260781398922216411256760477977804542015714170061116293342780041769869409054009242566649233672636653416259666992484041816151609333530173961335371356155027043157965625516151295550808614657451155555818172361490709317442745315300136416314925753130183618062579974827276786435588689189973155794341187099784889044682593524081061438732517265465416878296393928541734113497892110523561461860121964616601739686806742847 (10 ^ 600)]
/-- The distribution of the absorbing path simulation (effort 0, risk 0) after 400 steps, computed exactly. -/
def c4d400 : Vec := [mkRat 267241473850817518165199320564503506068766782965601425827209322574917260727404100666937448006004779519751375424437357210028823078700156771244262873178305706246642176330901854035189409151972502970069795944175332734511094941630412169290703802394378877889258041649638856534469077933176178318144752394849869605941633067474438386267507477089520750421922482433947865105720133146894607656331278911863010293980694924494095172141731848782506092234776452172046200969411976532798860836186497426091385743910424284998007139589268630259130328901309385451702616301826536440155576871079756249558102805194515433659368215204714797946514637413930538785735620975383679765320031585771369602860286199794257986149090429369484134753948398837036688626988769271464081258756816060843823481897909648868301876504195703494495417 (10 ^ 800), mkRat 74501103135605496783083123088157717943861541356657090938064017378549320372762614960354275523133722859323560037906417572841537305927912295968878323462667704159418508278831211400236518201691401423180614197230417676694436706158253529381046784179477883051229576185694791118784418686273457946234308542982296026211120745780568448868429565629032600287176216468543188474727053914429626199031597636556833937247972304329915524715009237115290139951943463628628651001643208809490040154990827767991632077144885315848453049436717667977969017481642282760170306611648649299901645897144189688443985707796325052526766666955947587105190927479877601052357017799671663663955917982047813075702795500995117724272876054664348900124622185329605373093773616559974773376986126271630865810131331462953424972875471523106486971 50000000000000000000000000000000000000000000000000000000000000000000000000000000000000000000000000000000000000000000000000000000000000000000000000000000000000000000000000000000000000000000000000000000000000000000000000000000000000000000000000000000000000000000000000000000000000000000000000000000000000000000000000000000000000000000000000000000000000000000000000000000000000000000000000000000000000000000000000000000000000000000000000000000000000000000000000000000000000000000000000000000000000000000000000000000000000000000000000000000000000000000000000000000000000000000000000000000000000000000000000000000000000000000000000000000000000000000000000000000000000000000000000000000000000000000000000000000000000000000000000000000000000000000000000000000000000000000000000000000000000000000000000000000, mkRat 41382474586406540453206274324364224629775703742941468187080788459701178304339676230091830511804151753165589869317579134344140863309052927303927783683761239439452093390710307641915436470067618958021449359797721703847630482194182810589363604914272691927046493999615394096931535469464142832015724907436034452085974838691462584846044029238083065162328511820306197493954377441795990933435043256566233147123770572315987195154762189681314331537269386234070365735490403373173205038591930300374578365798861665795604790042639853850928005043201312710832523392053797957792538878728759995813920170467605310297810030006905238199579051652351523025902328232116837728667642014948899076745567961677455988410651421096545233434594714399176867184091848908953100302042216657672516979708618939771483438419953227606632817 50000000000000000000000000000000000000000000000000000000000000000000000000000000000000000000000000000000000000000000000000000000000000000000000000000000000000000000000000000000000000000000000000000000000000000000000000000000000000000000000000000000000000000000000000000000000000000000000000000000000000000000000000000000000000000000000000000000000000000000000000000000000000000000000000000000000000000000000000000000000000000000000000000000000000000000000000000000000000000000000000000000000000000000000000000000000000000000000000000000000000000000000000000000000000000000000000000000000000000000000000000000000000000000000000000000000000000000000000000000000000000000000000000000000000000000000000000000000000000000000000000000000000000000000000000000000000000000000000000000000000000000000000000000, mkRat 1695000926936138102452733005650837238099821782352411356147801190966173745970310427660608558144528823872875645938949006197654299897044623220440614113118021555027078379179314477116452654477790266064212101397606578492786611109692292779490960999640029559563750338732251929843949507230794758734274576836249398680230746647487142669222862546459572700230141374211274497494956598143541121369568181961640956688900792053566082386358081100901852720687224492706699219661888205814180229479507554167014818405087137605809717072158364689903057204948149972685624570218395089949387028340462052911347952667935522172806184540536487942255308474077139421391126814688128053513675709612108653048207054417045052917971683673704607140237179593657877419786121201113742078241947793997233339535920928832018925771041026994931643 4000000000000000000000000000000000000000000000000000000000000000000000000000000000000000000000000000000000000000000000000000000000000000000000000000000000000000000000000000000000000000000000000000000000000000000000000000000000000000000000000000000000000000000000000000000000000000000000000000000000000000000000000000000000000000000000000000000000000000000000000000000000000000000000000000000000000000000000000000000000000000000000000000000000000000000000000000000000000000000000000000000000000000000000000000000000000000000000000000000000000000000000000000000000000000000000000000000000000000000000000000000000000000000000000000000000000000000000000000000000000000000000000000000000000000000000000000000000000000000000000000000000000000000000000000000000000000000000000000000000000000000000000000000, mkRat 24864654086882938738700225889867295419457865795569097793004701508993606849567283389065163781492626562664612108403160231055164615771349949300424777389925221466919984915212633061488148841285641174903980193601707056010521276350980601957820300348606779808291274014877858618697000069018644687789249579070851808617614601774348580244893243442378689650293328631658267875129885772296766407511124058688212457905013324880218736832114943317525434661692404308946222071266193398489130035759915074395750205727518725827892158563662014302208874798981324918572287777358827172948930344467165698264785596655394808946592830944339041838221890673117420681880741879148459029027897738919983122441509452628608617066383640631816528104905422077965987973830656817440709154856784450807654644362506041581220352039157232280051493483 25000000000000000000000000000000000000000000000000000000000000000000000000000000000000000000000000000000000000000000000000000000000000000000000000000000000000000000000000000000000000000000000000000000000000000000000000000000000000000000000000000000000000000000000000000000000000000000000000000000000000000000000000000000000000000000000000000000000000000000000000000000000000000000000000000000000000000000000000000000000000000000000000000000000000000000000000000000000000000000000000000000000000000000000000000000000000000000000000000000000000000000000000000000000000000000000000000000000000000000000000000000000000000000000000000000000000000000000000000000000000000000000000000000000000000000000000000000000000000000000000000000000000000000000000000000000000000000000000000000000000000000000000000000]
/-- The distribution of the absorbing path simulation (effort 0, risk 0) after 500 steps, computed exactly. -/
def c4d500 : Vec := [mkRat 3513403998404659116084877284417892230441767518767329100124051593831671650048683183699771598154873072347317077583213690691235153577572087463007130270551279028042791233089506054062458358149576082332366804424814556402007801673554293152621860707149330411908635367236186270291164365061456983847988363949247403920774081572132373120589541472519549724874082288713170729527856481198512169436267887158348744789331308475217016448230173320481783238242133247218007366576647333082743077478133999500107798209279705940133995811908597025015738819961826079499657673317598377022419663031341056065366030519563707621259876980819906874547622506926399371177244910621973026691217662751069526412675603604008980876835009707180159104511093834513605820221422376342212782014850199649258275586524979342432075992627269633793113766384884365796248145746465121686788395278395379837756424960147526468460420441932636083185846370153235711854792286967628524986468272759822780193737956514913048192637217975666315228383715427072432632357 5000000000000000000000000000000000000000000000000000000000000000000000000000000000000000000000000000000000000000000000000000000000000000000000000000000000000000000000000000000000000000000000000000000000000000000000000000000000000000000000000000000000000000000000000000000000000000000000000000000000000000000000000000000000000000000000000000000000000000000000000000000000000000000000000000000000000000000000000000000000000000000000000000000000000000000000000000000000000000000000000000000000000000000000000000000000000000000000000000000000000000000000000000000000000000000000000000000000000000000000000000000000000000000000000000000000000000000000000000000000000000000000000000000000000000000000000000000000000000000000000000000000000000000000000000000000000000000000000000000000000000000000000000000000000000000000000000000000000000000000000000000000000000000000000000000000000000000000000000000000000000000000000000000000000000000000000000000000000000000000000000000000000000000000000000000000000000, mkRat 1958921045229024524191231177113418702388599211551093641992199416799928768590000621496651119879616446685620151065077962501717434611005490762079198930553664793858094410389408764243865445152386669091328604611142788698549926343246138869804009248812978897557435910223792922377370147354988951003913376457658263645620873009908584208362640640853023791827739126250280343589039750296138431446749037459662731877641876549398537491087758038941868763562057408239299767255923042850571301510452976205656721281338881752762301056745651405968168105100436585811411360034211139759009280156435660919529863076774711068575384268673048549938803941303011078093394497234977122949771109335993255429659882528288482449651484633141571587868102115387055459232439936172526210998098405459520760389034621075825263079950597178455788425671464926350731775664419764964920672327090335467646779158325610413340505278975079928990959122292580644918999276036144382425403816488885880483367325246741437664870568137463248409694055746399631813147 5000000000000000000000000000000000000000000000000000000000000000000000000000000000000000000000000000000000000000000000000000000000000000000000000000000000000000000000000000000000000000000000000000000000000000000000000000000000000000000000000000000000000000000000000000000000000000000000000000000000000000000000000000000000000000000000000000000000000000000000000000000000000000000000000000000000000000000000000000000000000000000000000000000000000000000000000000000000000000000000000000000000000000000000000000000000000000000000000000000000000000000000000000000000000000000000000000000000000000000000000000000000000000000000000000000000000000000000000000000000000000000000000000000000000000000000000000000000000000000000000000000000000000000000000000000000000000000000000000000000000000000000000000000000000000000000000000000000000000000000000000000000000000000000000000000000000000000000000000000000000000000000000000000000000000000000000000000000000000000000000000000000000000000000000000000000000000, mkRat 1088104698576262238278487264404531245967327270214950173522175024489435741213978577188377779711532628256811285389278632995259160930391075648193576763367684553867055866610000328570071151934146576979662395268857610057746332115684979111431917943646266569490943000745376835190321505734752444101084160020534479617414804147048238098167942759845021362699742744351277182053489798303143489048504138821512512243718642719577647609093644018989398215535541771102075269645364001489450018885257757685888453841518166779014674967101592625108571337497989809983618987708060051845278590017495384474213110518161046021567394640028629012367851209411494961741814927928682305284462133144791270983382900274988032070433442229729915676008153315494877575939231432774734036879042195829997632956050089024460567058616024246915363982840656236513710659673225552306217352549470557451975495326862691152222259423566836577682188887161990206189779490237485340939221674386452930379661897499213139289997458808324046449280733549372188122113 5000000000000000000000000000000000000000000000000000000000000000000000000000000000000000000000000000000000000000000000000000000000000000000000000000000000000000000000000000000000000000000000000000000000000000000000000000000000000000000000000000000000000000000000000000000000000000000000000000000000000000000000000000000000000000000000000000000000000000000000000000000000000000000000000000000000000000000000000000000000000000000000000000000000000000000000000000000000000000000000000000000000000000000000000000000000000000000000000000000000000000000000000000000000000000000000000000000000000000000000000000000000000000000000000000000000000000000000000000000000000000000000000000000000000000000000000000000000000000000000000000000000000000000000000000000000000000000000000000000000000000000000000000000000000000000000000000000000000000000000000000000000000000000000000000000000000000000000000000000000000000000000000000000000000000000000000000000000000000000000000000000000000000000000000000000000000000, mkRat 1114202625098793859795196307822102031580698809523462724039448654300592980402684281555380007187486990854097674208982108270069895996015252448801674297375925458279413585923510989169756173520259913043901128955569418418079663827955986560881034238337809877109482828108156026290783177929486197727696287247385042120073146132152734347102012458836469041682142289385098095336019204872543813653055456858439260430005110242941372357276373997990416996318704497978456834359057182360030123405909044734521406051614356007183005928562723311659941491447515348732415922443089883347624555751272429332137244048323891778843798210925371353154229920342178456007045614738320224111992554283347869984875633564266553941088184125152766237094883736640236744283978770584257696388094886673195927356823126969524131449270728109634101370929526217468458005091227212159172700497133604725249169470485748531722180130909779467230286066327091764746582970781364945998917664115599109981219806077118714809071525703290932197399526819040518419857 (10 ^ 1000), mkRat 9985764937890481314383095612240306213610823913189409791444683699275457334699891990953675018997320468714566405297715877319353506605766047439804638513773678817790184703393898658717077453916007521430149383262434800671265312215907073191171403389962445038364976488615481131917991504785768117044366331911897734663512307336409668874798657737794728341199514729391985445394323208735531868006483902416262512761748611234268672224545900475245183482569001830648902778358685074062794441080846401488482172647284112135048995050399925594576155101983431979700678208035437170979398960377838183367749644747722677178798350890010031459773137214764376010721968045713690414866037105635252944024363687593621162455265071942734743941026130417732568685544929833738836796243827923511449250734779957494145040056288341489772037366279276462725210160832740551909924974459192953849759993431638842595400231449580141115353051725174457295109326274922736118557298894808614077707905245835401146034895917984453801847627883463735270976444909 (10 ^ 1000)]

set_option exponentiation.threshold 2000

/-- The parametric matrix at effort 0, risk 0 with lock-in, in reducible literal form. -/
def c4matQ : Matrix :=
  [[mkRat 9 10, mkRat 9 100, mkRat 1 100, 0, 0],
   [mkRat 3 20, mkRat 7 10, mkRat 7 50, mkRat 1 100, 0],
   [mkRat 1 100, mkRat 1 5, mkRat 3 5, mkRat 9 50, mkRat 1 100],
   [0, mkRat 1 20, mkRat 1 5, mkRat 3 5, mkRat 3 20],
   [0, 0, 0, 0, 1]]

theorem c4mat_eq : generateParametricMatrix ⟨0, 0, true⟩ = c4matQ := by
  with_unfolding_all decide

set_option maxRecDepth 1200000 in
theorem c4chunk1 : iterMulQ c4matQ 100 [1, 0, 0, 0, 0] = c4d100 := by decide

set_option maxRecDepth 1200000 in
theorem c4chunk2 : iterMulQ c4matQ 100 c4d100 = c4d200 := by decide

set_option maxRecDepth 1200000 in
theorem c4chunk3 : iterMulQ c4matQ 100 c4d200 = c4d300 := by decide

set_option maxRecDepth 1200000 in
theorem c4chunk4 : iterMulQ c4matQ 100 c4d300 = c4d400 := by decide

set_option maxRecDepth 1200000 in
theorem c4chunk5 : iterMulQ c4matQ 100 c4d400 = c4d500 := by decide

theorem c4_final_dist : (runPathSimulation ⟨0, 0, true⟩).finalDist = c4d500 := by
  have h : (runPathSimulation ⟨0, 0, true⟩).finalDist =
      iterMul (generateParametricMatrix ⟨0, 0, true⟩) 500 [1, 0, 0, 0, 0] := by
    simp only [runPathSimulation, if_pos]
  rw [h, c4mat_eq, ← iterMulQ_eq,
    show (500 : ℕ) = 100 + (100 + (100 + (100 + 100))) from rfl,
    iterMulQ_add, iterMulQ_add, iterMulQ_add, iterMulQ_add,
    c4chunk1, c4chunk2, c4chunk3, c4chunk4, c4chunk5]


/-! ## General helper lemmas -/

theorem cloneMatrix_eq (m : Matrix) : cloneMatrix m = m := by
  simp [cloneMatrix]

theorem sum_map_div (l : List ℚ) (s : ℚ) : (l.map (fun x => x / s)).sum = l.sum / s := by
  induction l with
  | nil => simp
  | cons a l ih => simp [ih, add_div]

theorem normalizeRow_eq_self (row : Vec) (h : row.sum = 1) : normalizeRow row = row := by
  unfold normalizeRow
  rw [h]
  simp

theorem normalizeRow_sum_one (row : Vec) (h : row.sum ≠ 0) : (normalizeRow row).sum = 1 := by
  unfold normalizeRow
  rw [if_neg h, sum_map_div, div_self h]

theorem normalizeRow_nonneg (row : Vec) (hs : 0 ≤ row.sum) (h : ∀ x ∈ row, 0 ≤ x) :
    ∀ x ∈ normalizeRow row, 0 ≤ x := by
  unfold normalizeRow
  intro x hx
  by_cases h0 : row.sum = 0
  · rw [if_pos h0] at hx
    exact h x hx
  · rw [if_neg h0] at hx
    obtain ⟨y, hy, rfl⟩ := List.mem_map.mp hx
    exact div_nonneg (h y hy) hs

theorem sum_pos_of_mem (l : List ℚ) (x : ℚ) (hx : x ∈ l) (hpos : 0 < x)
    (hnn : ∀ y ∈ l, 0 ≤ y) : 0 < l.sum := by
  induction l with
  | nil => cases hx
  | cons a l ih =>
    rw [List.sum_cons]
    rcases List.mem_cons.mp hx with rfl | hx2
    · have : 0 ≤ l.sum := List.sum_nonneg (fun y hy => hnn y (List.mem_cons_of_mem _ hy))
      linarith
    · have ha : 0 ≤ a := hnn a (List.mem_cons_self _ _)
      have := ih hx2 (fun y hy => hnn y (List.mem_cons_of_mem _ hy))
      linarith

/-- A row with nonnegative entries, one of them positive, normalises to a
probability row. -/
theorem normalizeRow_stoch (row : Vec) (hnn : ∀ x ∈ row, 0 ≤ x)
    (x : ℚ) (hx : x ∈ row) (hpos : 0 < x) :
    (normalizeRow row).sum = 1 ∧ ∀ y ∈ normalizeRow row, 0 ≤ y := by
  have hs : 0 < row.sum := sum_pos_of_mem row x hx hpos hnn
  exact ⟨normalizeRow_sum_one row (ne_of_gt hs), normalizeRow_nonneg row (le_of_lt hs) hnn⟩

theorem range_map_sum (f : ℕ → ℚ) (n : ℕ) :
    ((List.range n).map f).sum = ∑ i ∈ Finset.range n, f i := by
  induction n with
  | zero => simp
  | succ n ih => rw [List.range_succ, List.map_append, List.sum_append, Finset.sum_range_succ, ih]; simp

theorem sum_range_getD (l : List ℚ) :
    ((List.range l.length).map (fun i => l.getD i 0)).sum = l.sum := by
  induction l with
  | nil => simp
  | cons a l ih =>
    rw [List.length_cons, List.range_succ_eq_map, List.map_cons, List.map_map, List.sum_cons]
    simp only [List.getD_cons_zero, Function.comp_def, List.getD_cons_succ]
    rw [ih, List.sum_cons]

theorem getD_mem_of_lt (l : List ℚ) (i : ℕ) (h : i < l.length) : l.getD i 0 ∈ l := by
  rw [List.getD_eq_getElem l 0 h]
  exact List.getElem_mem h

theorem getD_row_mem (m : Matrix) (i : ℕ) (h : i < m.length) : m.getD i [] ∈ m := by
  rw [List.getD_eq_getElem m [] h]
  exact List.getElem_mem h

/-! ## C8: advanceDistribution on probability vectors -/

/-- Claim C8: for every probability vector `v` and row-stochastic matrix `P`
of the same dimension, `multiplyVectorMatrix v P` is again a probability
vector; in exact arithmetic its entries sum to exactly 1 (hence within the
spec tolerance of `1e-9`) and are nonnegative. -/
theorem multiplyVectorMatrix_prob_vector (v : Vec) (P : Matrix)
    (hlen : P.length = v.length) (hrows : ∀ row ∈ P, row.length = v.length)
    (hv1 : v.sum = 1) (hv0 : ∀ x ∈ v, 0 ≤ x)
    (hP1 : ∀ row ∈ P, row.sum = 1) (hP0 : ∀ row ∈ P, ∀ x ∈ row, 0 ≤ x) :
    (multiplyVectorMatrix v P).sum = 1 ∧ ∀ x ∈ multiplyVectorMatrix v P, 0 ≤ x := by
  constructor
  · unfold multiplyVectorMatrix
    rw [range_map_sum]
    have hswap : ∀ j ∈ Finset.range v.length,
        ((List.range v.length).map (fun i => v.getD i 0 * ((P.getD i []).getD j 0))).sum =
          ∑ i ∈ Finset.range v.length, v.getD i 0 * ((P.getD i []).getD j 0) :=
      fun j _ => range_map_sum _ _
    rw [Finset.sum_congr rfl hswap, Finset.sum_comm]
    have hrowsum : ∀ i ∈ Finset.range v.length,
        (∑ j ∈ Finset.range v.length, v.getD i 0 * ((P.getD i []).getD j 0)) = v.getD i 0 := by
      intro i hi
      rw [← Finset.mul_sum]
      have hiP : i < P.length := by rw [hlen]; exact Finset.mem_range.mp hi
      have hmem := getD_row_mem P i hiP
      have hL : (P.getD i []).length = v.length := hrows _ hmem
      have : (∑ j ∈ Finset.range v.length, (P.getD i []).getD j 0) = (P.getD i []).sum := by
        rw [← range_map_sum, ← hL, sum_range_getD]
      rw [this, hP1 _ hmem, mul_one]
    rw [Finset.sum_congr rfl hrowsum, ← range_map_sum]
    have : (fun i => v.getD i 0) = fun i => v.getD i 0 := rfl
    rw [sum_range_getD, hv1]
  · intro x hx
    unfold multiplyVectorMatrix at hx
    obtain ⟨j, hj, rfl⟩ := List.mem_map.mp hx
    refine List.sum_nonneg ?_
    intro y hy
    obtain ⟨i, hi, rfl⟩ := List.mem_map.mp hy
    have hiv : i < v.length := List.mem_range.mp hi
    have hv := hv0 _ (getD_mem_of_lt v i hiv)
    rcases Nat.lt_or_ge i P.length with hiP | hiP
    · have hmem := getD_row_mem P i hiP
      rcases Nat.lt_or_ge j (P.getD i []).length with hjr | hjr
      · exact mul_nonneg hv (hP0 _ hmem _ (getD_mem_of_lt _ j hjr))
      · rw [List.getD_eq_default _ _ hjr]
        simp
    · rw [List.getD_eq_default _ _ hiP]
      simp

/-- Witness for C8 at the uniform vector and the baseline matrix. -/
theorem multiplyVectorMatrix_prob_vector_witness :
    (multiplyVectorMatrix [1/5, 1/5, 1/5, 1/5, 1/5] createBaselineMatrix).sum = 1 ∧
    ∀ x ∈ multiplyVectorMatrix [1/5, 1/5, 1/5, 1/5, 1/5] createBaselineMatrix, 0 ≤ x :=
  multiplyVectorMatrix_prob_vector [1/5, 1/5, 1/5, 1/5, 1/5] createBaselineMatrix
    (by with_unfolding_all decide) (by with_unfolding_all decide)
    (by with_unfolding_all decide) (by with_unfolding_all decide)
    (by with_unfolding_all decide) (by with_unfolding_all decide)

/-! ## C9 and C10: mixing time and spectral gap -/

/-- The sequence of distributions of the mixing-time loop: one-hot at state 0
advanced `t` times. -/
def mixDists (m : Matrix) : ℕ → Vec
  | 0 => [1, 0, 0, 0, 0]
  | t + 1 => multiplyVectorMatrix (mixDists m t) m

/-- The L1 change between the distributions at steps `t` and `t − 1`. -/
def mixChange (m : Matrix) (t : ℕ) : ℚ :=
  ((List.range STATES_COUNT).map
    (fun i => |(mixDists m t).getD i 0 - (mixDists m (t - 1)).getD i 0|)).sum

theorem mixGo_spec (m : Matrix) : ∀ (fuel t : ℕ), 1 ≤ t → fuel + t = 5000 →
    t ≤ mixGo m fuel t (mixDists m (t - 1)) ∧
    mixGo m fuel t (mixDists m (t - 1)) ≤ 5000 ∧
    (∀ s, t ≤ s → s < mixGo m fuel t (mixDists m (t - 1)) → ¬ (mixChange m s < 1 / 10 ^ 5)) ∧
    (mixGo m fuel t (mixDists m (t - 1)) < 5000 →
      mixChange m (mixGo m fuel t (mixDists m (t - 1))) < 1 / 10 ^ 5)
  | 0, t, ht1, hft => by
    constructor
    · rw [mixGo]; omega
    constructor
    · rw [mixGo]
    constructor
    · intro s hts hsr
      rw [mixGo] at hsr
      omega
    · intro hlt
      rw [mixGo] at hlt
      omega
  | fuel + 1, t, ht1, hft => by
    have hstep : multiplyVectorMatrix (mixDists m (t - 1)) m = mixDists m t := by
      conv_rhs => rw [show t = (t - 1) + 1 by omega]
      rw [mixDists]
    have hchange : ((List.range STATES_COUNT).map
        (fun i => |(multiplyVectorMatrix (mixDists m (t - 1)) m).getD i 0 -
          (mixDists m (t - 1)).getD i 0|)).sum = mixChange m t := by
      rw [hstep, mixChange]
    rw [mixGo]
    simp only [hchange]
    by_cases hc : mixChange m t < 1 / 10 ^ 5
    · rw [if_pos hc]
      refine ⟨le_refl t, by omega, ?_, fun _ => hc⟩
      intro s hts hst
      omega
    · rw [if_neg hc, hstep]
      have hnext : mixDists m t = mixDists m ((t + 1) - 1) := by norm_num
      rw [hnext]
      have ih := mixGo_spec m fuel (t + 1) (by omega) (by omega)
      obtain ⟨ih1, ih2, ih3, ih4⟩ := ih
      refine ⟨by omega, ih2, ?_, ih4⟩
      intro s hts hsr
      rcases Nat.eq_or_lt_of_le hts with rfl | hlt
      · exact hc
      · exact ih3 s hlt hsr

theorem calculateMixingTime_spec (m : Matrix) :
    1 ≤ calculateMixingTime m ∧ calculateMixingTime m ≤ 5000 ∧
    (∀ s, 1 ≤ s → s < calculateMixingTime m → ¬ (mixChange m s < 1 / 10 ^ 5)) ∧
    (calculateMixingTime m < 5000 → mixChange m (calculateMixingTime m) < 1 / 10 ^ 5) := by
  have h := mixGo_spec m 4999 1 (le_refl 1) (by norm_num)
  simpa [calculateMixingTime, mixDists] using h

/-- The 5-state identity matrix, used for the boundary instances of the
mixing-time claims. -/
def identityMatrix5 : Matrix :=
  [[1, 0, 0, 0, 0], [0, 1, 0, 0, 0], [0, 0, 1, 0, 0], [0, 0, 0, 1, 0], [0, 0, 0, 0, 1]]

/-- Claim C9: for every matrix `P`, `calculateMixingTime P` terminates and
returns either the first step count `t ≥ 1` at which the L1 change between
consecutive distributions (starting from the one-hot vector at state 0)
falls below `1e-5`, or the bound `5000` when no step below the bound
converges; the result always lies in `[1, 5000]`. -/
theorem calculateMixingTime_first_convergence (m : Matrix) :
    (1 ≤ calculateMixingTime m ∧ calculateMixingTime m ≤ 5000) ∧
    (calculateMixingTime m < 5000 →
      mixChange m (calculateMixingTime m) < 1 / 10 ^ 5 ∧
      ∀ s, 1 ≤ s → s < calculateMixingTime m → ¬ (mixChange m s < 1 / 10 ^ 5)) ∧
    (calculateMixingTime m = 5000 →
      ∀ s, 1 ≤ s → s < 5000 → ¬ (mixChange m s < 1 / 10 ^ 5)) := by
  obtain ⟨h1, h2, h3, h4⟩ := calculateMixingTime_spec m
  refine ⟨⟨h1, h2⟩, fun hlt => ⟨h4 hlt, fun s hs1 hs2 => h3 s hs1 hs2⟩, fun heq s hs1 hs2 => ?_⟩
  exact h3 s hs1 (by omega)

/-- Witness for C9 at the identity matrix: the loop stops at step 1. -/
theorem calculateMixingTime_first_convergence_witness :
    mixChange identityMatrix5 (calculateMixingTime identityMatrix5) < 1 / 10 ^ 5 :=
  ((calculateMixingTime_first_convergence identityMatrix5).2.1
    (by with_unfolding_all decide)).1

/-- Claim C10: `calculateMixingTime` never returns 0, so the zero guard of
`estimateSpectralGap` is unreachable from engine code: the spectral gap it
reports — also the one reported by `runSimulation` — always equals the
reciprocal of the mixing time and lies in `(0, 1]`; for the identity matrix
the mixing time is 1 and the gap is 1. -/
theorem spectralGap_reciprocal_spec (m : Matrix) (cfg : SimulationConfig)
    (custom : Option Matrix) :
    (1 ≤ calculateMixingTime m ∧
      estimateSpectralGap (calculateMixingTime m) = 1 / (calculateMixingTime m : ℚ) ∧
      0 < estimateSpectralGap (calculateMixingTime m) ∧
      estimateSpectralGap (calculateMixingTime m) ≤ 1) ∧
    ((runSimulation cfg custom).spectralGap =
        1 / ((runSimulation cfg custom).mixingTime : ℚ) ∧
      1 ≤ (runSimulation cfg custom).mixingTime) ∧
    (calculateMixingTime identityMatrix5 = 1 ∧
      estimateSpectralGap (calculateMixingTime identityMatrix5) = 1) := by
  have key : ∀ P : Matrix, 1 ≤ calculateMixingTime P ∧
      estimateSpectralGap (calculateMixingTime P) = 1 / (calculateMixingTime P : ℚ) ∧
      0 < estimateSpectralGap (calculateMixingTime P) ∧
      estimateSpectralGap (calculateMixingTime P) ≤ 1 := by
    intro P
    obtain ⟨h1, h2, -, -⟩ := calculateMixingTime_spec P
    have hne : calculateMixingTime P ≠ 0 := by omega
    have heq : estimateSpectralGap (calculateMixingTime P) =
        1 / (calculateMixingTime P : ℚ) := by
      rw [estimateSpectralGap, if_neg hne]
    have hcast : (1 : ℚ) ≤ (calculateMixingTime P : ℚ) := by exact_mod_cast h1
    refine ⟨h1, heq, ?_, ?_⟩
    · rw [heq]
      positivity
    · rw [heq]
      rw [div_le_one (by linarith)]
      exact hcast
  have hproj : (runSimulation cfg custom).spectralGap =
      estimateSpectralGap (runSimulation cfg custom).mixingTime ∧
      (runSimulation cfg custom).mixingTime =
        calculateMixingTime (runSimulation cfg custom).habitMatrix := by
    constructor <;> simp [runSimulation]
  have hid : calculateMixingTime identityMatrix5 = 1 := by with_unfolding_all decide
  refine ⟨key m, ⟨?_, ?_⟩, hid, ?_⟩
  · rw [hproj.1, hproj.2]
    exact (key _).2.1
  · rw [hproj.2]
    exact (key _).1
  · rw [hid, estimateSpectralGap, if_neg one_ne_zero]
    norm_num

/-! ## C5: zero perturbation gives identical timelines -/

/-- A sampled step whose baseline and habit components agree. -/
def pairedStep (s : SimulationStep) : Prop :=
  s.baselineDist = s.habitDist ∧ s.baselineExpectedValue = s.habitExpectedValue

theorem simStep_paired (P : Matrix) (days rate t : ℕ) (st : Vec × Vec × List SimulationStep)
    (h1 : st.1 = st.2.1) (h2 : ∀ s ∈ st.2.2, pairedStep s) :
    (simStep P P days rate st t).1 = (simStep P P days rate st t).2.1 ∧
    ∀ s ∈ (simStep P P days rate st t).2.2, pairedStep s := by
  simp only [simStep]
  have hacc2 : ∀ s ∈ (if t % rate = 0 ∨ t = days then
      st.2.2 ++ [⟨t, calculateExpectedValue st.1, calculateExpectedValue st.2.1, st.1, st.2.1⟩]
      else st.2.2), pairedStep s := by
    split
    · intro s hs
      rcases List.mem_append.mp hs with h | h
      · exact h2 s h
      · rcases List.mem_singleton.mp h with rfl
        exact ⟨h1, congrArg calculateExpectedValue h1⟩
    · exact h2
  split
  · exact ⟨congrArg (fun v => multiplyVectorMatrix v P) h1, hacc2⟩
  · exact ⟨h1, hacc2⟩

theorem simFold_paired (P : Matrix) (days rate : ℕ) (l : List ℕ) :
    ∀ (st : Vec × Vec × List SimulationStep), st.1 = st.2.1 →
      (∀ s ∈ st.2.2, pairedStep s) →
      (l.foldl (simStep P P days rate) st).1 = (l.foldl (simStep P P days rate) st).2.1 ∧
      ∀ s ∈ (l.foldl (simStep P P days rate) st).2.2, pairedStep s := by
  induction l with
  | nil => exact fun st h1 h2 => ⟨h1, h2⟩
  | cons t l ih =>
    intro st h1 h2
    rw [List.foldl_cons]
    obtain ⟨g1, g2⟩ := simStep_paired P days rate t st h1 h2
    exact ih _ g1 g2

theorem simulationLoop_paired (P : Matrix) (days rate : ℕ) (sv : Vec) :
    (simulationLoop P P days rate sv).1 = (simulationLoop P P days rate sv).2.1 ∧
    ∀ s ∈ (simulationLoop P P days rate sv).2.2, pairedStep s :=
  simFold_paired P days rate (List.range (days + 1)) (sv, sv, []) rfl
    (by intro s hs; cases hs)

theorem applyMicroHabit_zero : applyMicroHabit createBaselineMatrix 0 = createBaselineMatrix := by
  with_unfolding_all decide

theorem runSimulation_paired_general (cfg : SimulationConfig)
    (hz : applyMicroHabit createBaselineMatrix cfg.impactFactor = createBaselineMatrix) :
    (runSimulation cfg none).timeline.Forall pairedStep ∧
    (runSimulation cfg none).baselineFinalDist = (runSimulation cfg none).habitFinalDist := by
  simp only [runSimulation, hz]
  obtain ⟨h1, h2⟩ := simulationLoop_paired createBaselineMatrix (cfg.years * 365)
    (if cfg.years * 365 > 7000 then 60 else if cfg.years * 365 > 2000 then 30 else 7)
    ((List.range STATES_COUNT).map (fun i => if i = cfg.initialState then (1 : ℚ) else 0))
  exact ⟨List.forall_iff_forall_mem.mpr h2, h1⟩

/-- Claim C5: `runSimulation` with one year, zero perturbation strength,
initial state 0 and no override matrix yields baseline and habit timelines
that agree at every sampled step (distributions and expected values), and
equal final distributions. -/
theorem runSimulation_zero_perturbation_identical :
    (runSimulation ⟨1, 0, 0⟩ none).timeline.Forall pairedStep ∧
    (runSimulation ⟨1, 0, 0⟩ none).baselineFinalDist =
      (runSimulation ⟨1, 0, 0⟩ none).habitFinalDist :=
  runSimulation_paired_general ⟨1, 0, 0⟩ applyMicroHabit_zero

/-! ## C6: availability of the expected absorption time -/

theorem createBaselineMatrix_eq :
    createBaselineMatrix =
      [[9/10, 9/100, 1/100, 0, 0],
       [15/100, 7/10, 14/100, 1/100, 0],
       [1/100, 2/10, 6/10, 18/100, 1/100],
       [0, 5/100, 2/10, 6/10, 15/100],
       [0, 0, 1/10, 4/10, 5/10]] := by
  with_unfolding_all decide

theorem range_five : List.range 5 = [0, 1, 2, 3, 4] := rfl

theorem gPM_row4_true (e r : ℚ) :
    (generateParametricMatrix ⟨e, r, true⟩).getD 4 [] = [0, 0, 0, 0, 1] := by
  simp [generateParametricMatrix, range_five, STATES_COUNT]

theorem gPM_row4_false (e r : ℚ) (_hr0 : 0 ≤ r) (hr1 : r ≤ 1) :
    (generateParametricMatrix ⟨e, r, false⟩).getD 4 [] =
      [0, 0, 1/10, 2/5 + r * (3/10), 1/2 - r * (3/10)] := by
  have hmax : max 0 (1/2 - r * (3/10)) = 1/2 - r * (3/10) :=
    max_eq_right (by linarith)
  simp only [generateParametricMatrix, createBaselineMatrix_eq, range_five, STATES_COUNT,
    List.map_cons, List.map_nil, List.getD_cons_succ, List.getD_cons_zero]
  norm_num [List.set]
  rw [hmax]
  apply normalizeRow_eq_self
  simp [List.sum_cons]
  ring

/-- Claim C6: `runPathSimulation` reports `expectedStepsToAbsorb` as `none`
exactly when the generated matrix has `P[4][4] ≤ 0.99` (the generated value
never equals 0.99, so the code's strict test agrees); when present it is
entry 0 of the solution `t` of `(I − Q)·t = ones` over the four transient
states; with the built-in generator it is present exactly when the lock-in
flag is set. -/
theorem expectedStepsToAbsorb_spec (e r : ℚ) (hr0 : 0 ≤ r) (hr1 : r ≤ 1) (ab : Bool) :
    ((runPathSimulation ⟨e, r, ab⟩).expectedStepsToAbsorb = none ↔
      (((runPathSimulation ⟨e, r, ab⟩).matrix.getD 4 []).getD 4 0 ≤ 99/100)) ∧
    ((runPathSimulation ⟨e, r, ab⟩).expectedStepsToAbsorb ≠ none ↔ ab = true) ∧
    (ab = true → (runPathSimulation ⟨e, r, ab⟩).expectedStepsToAbsorb =
      some ((solveLinearSystem (fundamentalLHS (runPathSimulation ⟨e, r, ab⟩).matrix)
        (List.replicate 4 1)).getD 0 0)) := by
  have hmat : (runPathSimulation ⟨e, r, ab⟩).matrix = generateParametricMatrix ⟨e, r, ab⟩ := by
    simp [runPathSimulation]
  have hexp : (runPathSimulation ⟨e, r, ab⟩).expectedStepsToAbsorb =
      calculateTimeToAbsorption (generateParametricMatrix ⟨e, r, ab⟩) := by
    simp [runPathSimulation]
  cases ab with
  | false =>
    have hrow := gPM_row4_false e r hr0 hr1
    have hP44 : ((generateParametricMatrix ⟨e, r, false⟩).getD 4 []).getD 4 0 =
        1/2 - r * (3/10) := by
      rw [hrow]
      simp [List.getD_cons_succ, List.getD_cons_zero]
    have hlt : (1 : ℚ)/2 - r * (3/10) < 99/100 := by linarith
    have hnone : calculateTimeToAbsorption (generateParametricMatrix ⟨e, r, false⟩) = none := by
      rw [calculateTimeToAbsorption, hP44, if_pos hlt]
    refine ⟨?_, ?_, ?_⟩
    · rw [hexp, hmat, hnone, hP44]
      constructor
      · intro _
        linarith
      · intro _
        rfl
    · rw [hexp, hnone]
      simp
    · intro h
      cases h
  | true =>
    have hrow := gPM_row4_true e r
    have hP44 : ((generateParametricMatrix ⟨e, r, true⟩).getD 4 []).getD 4 0 = 1 := by
      rw [hrow]
      simp [List.getD_cons_succ, List.getD_cons_zero]
    have hsome : calculateTimeToAbsorption (generateParametricMatrix ⟨e, r, true⟩) =
        some ((solveLinearSystem (fundamentalLHS (generateParametricMatrix ⟨e, r, true⟩))
          (List.replicate 4 1)).getD 0 0) := by
      rw [calculateTimeToAbsorption, hP44, if_neg (by norm_num)]
    refine ⟨?_, ?_, ?_⟩
    · rw [hexp, hmat, hsome, hP44]
      constructor
      · intro h
        cases h
      · intro h
        norm_num at h
    · rw [hexp, hsome]
      simp
    · intro _
      rw [hexp, hmat, hsome]

/-- Witness for C6 at `effort = risk = 1/2` with the lock-in flag set. -/
theorem expectedStepsToAbsorb_spec_witness :
    (runPathSimulation ⟨1/2, 1/2, true⟩).expectedStepsToAbsorb ≠ none :=
  ((expectedStepsToAbsorb_spec (1/2) (1/2) (by norm_num) (by norm_num) true).2.1).mpr rfl

/-! ## C7: all engine matrices are row-stochastic -/

/-- Nonnegative entries, every row summing to one. -/
def isRowStochastic (m : Matrix) : Prop :=
  ∀ row ∈ m, row.sum = 1 ∧ ∀ x ∈ row, 0 ≤ x

theorem applyMicroHabit_baseline (f : ℚ) :
    applyMicroHabit createBaselineMatrix f =
      [normalizeRow [max 0 (9/10 - f), 9/100 + f, 1/100, 0, 0],
       normalizeRow [max 0 (15/100 - f), 7/10, 14/100 + f, 1/100, 0],
       normalizeRow [1/100, max 0 (2/10 - f), 6/10, 18/100 + f, 1/100],
       normalizeRow [0, 5/100, max 0 (2/10 - f), 6/10, 15/100 + f],
       normalizeRow [0, 0, 1/10, max 0 (4/10 - f), 5/10 + f]] := by
  rw [applyMicroHabit, createBaselineMatrix_eq]
  norm_num [STATES_COUNT, range_five, List.set]

set_option maxHeartbeats 3000000 in
theorem gPM_rows (e r : ℚ) (ab : Bool) :
    generateParametricMatrix ⟨e, r, ab⟩ =
      [normalizeRow [max 0 (9/10 - e * (9/10) * (8/10) - r * (3/10) / 2),
                     max 0 (9/100 + e * (9/10) * (8/10) - r * (3/10) / 2),
                     1/100 + r * (3/10), 0, 0],
       normalizeRow [15/100 + r * (3/10),
                     max 0 (max 0 (7/10 - e * (7/10) * (8/10) - r * (3/10) / 2) - r * (3/10)),
                     max 0 (14/100 + e * (7/10) * (8/10) - r * (3/10) / 2),
                     1/100 + r * (3/10), 0],
       normalizeRow [1/100, 2/10 + r * (3/10),
                     max 0 (max 0 (6/10 - e * (6/10) * (8/10) - r * (3/10) / 2) - r * (3/10)),
                     max 0 (18/100 + e * (6/10) * (8/10) - r * (3/10) / 2),
                     1/100 + r * (3/10)],
       normalizeRow [0, 5/100, 2/10 + r * (3/10),
                     max 0 (6/10 - e * (6/10) * (8/10) - r * (3/10)),
                     15/100 + e * (6/10) * (8/10)],
       if ab = true then [0, 0, 0, 0, 1]
         else normalizeRow [0, 0, 1/10, 4/10 + r * (3/10), max 0 (5/10 - r * (3/10))]] := by
  rw [generateParametricMatrix, createBaselineMatrix_eq]
  simp only [STATES_COUNT, range_five, List.map_cons, List.map_nil]
  norm_num [List.set]

theorem createBaselineMatrix_stochastic : isRowStochastic createBaselineMatrix := by
  rw [createBaselineMatrix_eq]
  unfold isRowStochastic
  with_unfolding_all decide

/-- Claim C7: every transition matrix the engine constructs — the baseline,
the micro-habit perturbation of it for any nonnegative impact factor, and
the parametric path matrix for any effort and risk in `[0,1]` with or
without the absorbing flag — has nonnegative entries and rows summing to 1. -/
theorem engine_matrices_row_stochastic :
    isRowStochastic createBaselineMatrix ∧
    (∀ f : ℚ, 0 ≤ f → isRowStochastic (applyMicroHabit createBaselineMatrix f)) ∧
    (∀ (e r : ℚ) (ab : Bool), 0 ≤ e → e ≤ 1 → 0 ≤ r → r ≤ 1 →
      isRowStochastic (generateParametricMatrix ⟨e, r, ab⟩)) := by
  refine ⟨createBaselineMatrix_stochastic, ?_, ?_⟩
  · intro f hf
    rw [applyMicroHabit_baseline f]
    intro row hrow
    simp only [List.mem_cons, List.not_mem_nil, or_false] at hrow
    rcases hrow with rfl | rfl | rfl | rfl | rfl
    · refine normalizeRow_stoch _ ?_ (9/100 + f) (by simp) (by linarith)
      intro x hx
      simp only [List.mem_cons, List.not_mem_nil, or_false] at hx
      rcases hx with rfl | rfl | rfl | rfl | rfl
      all_goals first | exact le_max_left _ _ | linarith
    · refine normalizeRow_stoch _ ?_ (14/100 + f) (by simp) (by linarith)
      intro x hx
      simp only [List.mem_cons, List.not_mem_nil, or_false] at hx
      rcases hx with rfl | rfl | rfl | rfl | rfl
      all_goals first | exact le_max_left _ _ | linarith
    · refine normalizeRow_stoch _ ?_ (18/100 + f) (by simp) (by linarith)
      intro x hx
      simp only [List.mem_cons, List.not_mem_nil, or_false] at hx
      rcases hx with rfl | rfl | rfl | rfl | rfl
      all_goals first | exact le_max_left _ _ | linarith
    · refine normalizeRow_stoch _ ?_ (15/100 + f) (by simp) (by linarith)
      intro x hx
      simp only [List.mem_cons, List.not_mem_nil, or_false] at hx
      rcases hx with rfl | rfl | rfl | rfl | rfl
      all_goals first | exact le_max_left _ _ | linarith
    · refine normalizeRow_stoch _ ?_ (5/10 + f) (by simp) (by linarith)
      intro x hx
      simp only [List.mem_cons, List.not_mem_nil, or_false] at hx
      rcases hx with rfl | rfl | rfl | rfl | rfl
      all_goals first | exact le_max_left _ _ | linarith
  · intro e r ab he0 he1 hr0 hr1
    rw [gPM_rows e r ab]
    intro row hrow
    simp only [List.mem_cons, List.not_mem_nil, or_false] at hrow
    rcases hrow with rfl | rfl | rfl | rfl | rfl
    · refine normalizeRow_stoch _ ?_ (1/100 + r * (3/10)) (by simp) (by linarith)
      intro x hx
      simp only [List.mem_cons, List.not_mem_nil, or_false] at hx
      rcases hx with rfl | rfl | rfl | rfl | rfl
      all_goals first | exact le_max_left _ _ | linarith
    · refine normalizeRow_stoch _ ?_ (15/100 + r * (3/10)) (by simp) (by linarith)
      intro x hx
      simp only [List.mem_cons, List.not_mem_nil, or_false] at hx
      rcases hx with rfl | rfl | rfl | rfl | rfl
      all_goals first | exact le_max_left _ _ | linarith
    · refine normalizeRow_stoch _ ?_ (1/100) (by simp) (by norm_num)
      intro x hx
      simp only [List.mem_cons, List.not_mem_nil, or_false] at hx
      rcases hx with rfl | rfl | rfl | rfl | rfl
      all_goals first | exact le_max_left _ _ | linarith
    · refine normalizeRow_stoch _ ?_ (5/100) (by simp) (by norm_num)
      intro x hx
      simp only [List.mem_cons, List.not_mem_nil, or_false] at hx
      rcases hx with rfl | rfl | rfl | rfl | rfl
      all_goals first | exact le_max_left _ _ | nlinarith
    · cases ab with
      | true =>
        rw [if_pos rfl]
        constructor
        · norm_num
        · intro x hx
          simp only [List.mem_cons, List.not_mem_nil, or_false] at hx
          rcases hx with rfl | rfl | rfl | rfl | rfl <;> norm_num
      | false =>
        rw [if_neg (by simp)]
        refine normalizeRow_stoch _ ?_ (1/10) (by simp) (by norm_num)
        intro x hx
        simp only [List.mem_cons, List.not_mem_nil, or_false] at hx
        rcases hx with rfl | rfl | rfl | rfl | rfl
        all_goals first | exact le_max_left _ _ | linarith

/-- Witness for C7 at a concrete impact factor and path configuration. -/
theorem engine_matrices_row_stochastic_witness :
    isRowStochastic (applyMicroHabit createBaselineMatrix (1/100)) ∧
    isRowStochastic (generateParametricMatrix ⟨1/2, 1/2, true⟩) :=
  ⟨engine_matrices_row_stochastic.2.1 (1/100) (by norm_num),
    engine_matrices_row_stochastic.2.2 (1/2) (1/2) true
      (by norm_num) (by norm_num) (by norm_num) (by norm_num)⟩

/-! ## C3: the interactive matrix edit -/

theorem getD_set_ne (l : List ℚ) (i k : ℕ) (x : ℚ) (h : k ≠ i) :
    (l.set i x).getD k 0 = l.getD k 0 := by
  simp [List.getD_eq_getElem?_getD, List.getElem?_set_ne (Ne.symm h)]

theorem getDrow_set_ne (l : Matrix) (i k : ℕ) (x : Vec) (h : k ≠ i) :
    (l.set i x).getD k [] = l.getD k [] := by
  simp [List.getD_eq_getElem?_getD, List.getElem?_set_ne (Ne.symm h)]

theorem getDrow_set_eq (l : Matrix) (i : ℕ) (x : Vec) (h : i < l.length) :
    (l.set i x).getD i [] = x := by
  simp [List.getD_eq_getElem?_getD, List.getElem?_set_self, h]

theorem list_eq_five (l : Vec) (h : l.length = 5) :
    ∃ a b c d e, l = [a, b, c, d, e] := by
  rcases l with _ | ⟨a, _ | ⟨b, _ | ⟨c, _ | ⟨d, _ | ⟨e, _ | ⟨f, t⟩⟩⟩⟩⟩⟩ <;> simp at h
  exact ⟨a, b, c, d, e, rfl⟩

theorem scale_sum (old rest v2 : ℚ) (hrest : old + rest = 1) (ha : (1:ℚ) - old ≠ 0) :
    v2 + rest * ((1 - v2) / (1 - old)) = 1 := by
  have h : rest = 1 - old := by linarith
  rw [h]
  field_simp

theorem even_sum4 (v2 : ℚ) :
    v2 + ((1 - v2) / 4 + ((1 - v2) / 4 + ((1 - v2) / 4 + ((1 - v2) / 4 + 0)))) = 1 := by
  field_simp
  ring



set_option maxHeartbeats 1000000 in
/-- Claim C3 (amended): for a matrix whose row `i` has five entries summing
to 1 (in particular any row-stochastic matrix of the app), the edit clamps
the new value into `[0,1]`, returns a matrix whose row `i` again sums to 1
with the clamped value at position `j`, and leaves every other row
entry-for-entry unchanged. -/
theorem updateMatrixProbability_spec (P : Matrix) (i j : ℕ) (v : ℚ)
    (hi : i < P.length) (hlen : (P.getD i []).length = 5) (hj : j < 5)
    (hsum : (P.getD i []).sum = 1) :
    ((updateMatrixProbability P i j v).getD i []).sum = 1 ∧
    ((updateMatrixProbability P i j v).getD i []).getD j 0 = max 0 (min 1 v) ∧
    ∀ k, k ≠ i → (updateMatrixProbability P i j v).getD k [] = P.getD k [] := by
  obtain ⟨a, b, c, d, e, hR⟩ := list_eq_five _ hlen
  rw [hR, List.sum_cons, List.sum_cons, List.sum_cons, List.sum_cons, List.sum_cons,
    List.sum_nil] at hsum
  by_cases hold : (P.getD i []).getD j 0 = max 0 (min 1 v)
  · have heq : updateMatrixProbability P i j v = P := by
      rw [updateMatrixProbability, if_pos hold, cloneMatrix_eq]
    rw [heq, hR]
    refine ⟨by simp [List.sum_cons]; linarith, ?_, fun k _ => rfl⟩
    rw [← hR, hold]
  · have hstep : updateMatrixProbability P i j v =
        P.set i (normalizeRow (
          if 1 - (P.getD i []).getD j 0 > 1 / 10 ^ 4 then
            (List.range ((P.getD i []).set j (max 0 (min 1 v))).length).map
              (fun j2 => if j2 = j then ((P.getD i []).set j (max 0 (min 1 v))).getD j2 0
                else ((P.getD i []).set j (max 0 (min 1 v))).getD j2 0 *
                  ((1 - max 0 (min 1 v)) / (1 - (P.getD i []).getD j 0)))
          else if 0 < ((P.getD i []).set j (max 0 (min 1 v))).length - 1 then
            (List.range ((P.getD i []).set j (max 0 (min 1 v))).length).map
              (fun j2 => if j2 = j then ((P.getD i []).set j (max 0 (min 1 v))).getD j2 0
                else (1 - max 0 (min 1 v)) /
                  ((((P.getD i []).set j (max 0 (min 1 v))).length - 1 : ℕ) : ℚ))
          else (P.getD i []).set j (max 0 (min 1 v)))) := by
      rw [updateMatrixProbability, if_neg hold, cloneMatrix_eq]
    have key : ∀ r2, r2 = (if 1 - (P.getD i []).getD j 0 > 1 / 10 ^ 4 then
            (List.range ((P.getD i []).set j (max 0 (min 1 v))).length).map
              (fun j2 => if j2 = j then ((P.getD i []).set j (max 0 (min 1 v))).getD j2 0
                else ((P.getD i []).set j (max 0 (min 1 v))).getD j2 0 *
                  ((1 - max 0 (min 1 v)) / (1 - (P.getD i []).getD j 0)))
          else if 0 < ((P.getD i []).set j (max 0 (min 1 v))).length - 1 then
            (List.range ((P.getD i []).set j (max 0 (min 1 v))).length).map
              (fun j2 => if j2 = j then ((P.getD i []).set j (max 0 (min 1 v))).getD j2 0
                else (1 - max 0 (min 1 v)) /
                  ((((P.getD i []).set j (max 0 (min 1 v))).length - 1 : ℕ) : ℚ))
          else (P.getD i []).set j (max 0 (min 1 v))) →
        r2.sum = 1 ∧ r2.getD j 0 = max 0 (min 1 v) := by
      intro r2 hr2
      rw [hR] at hr2
      interval_cases j
      · simp only [List.set, List.length_cons, List.length_nil, List.getD_cons_zero,
          List.getD_cons_succ] at hr2
        norm_num [range_five] at hr2
        split at hr2
        · rename_i hgt
          rw [hr2]
          refine ⟨?_, by simp⟩
          simp only [List.sum_cons, List.sum_nil]
          linear_combination scale_sum a (b + c + d + e) (max 0 (min 1 v)) (by linarith)
            (ne_of_gt (by linarith))
        · rw [hr2]
          refine ⟨?_, by simp⟩
          simp only [List.sum_cons, List.sum_nil]
          linear_combination even_sum4 (max 0 (min 1 v))
      · simp only [List.set, List.length_cons, List.length_nil, List.getD_cons_zero,
          List.getD_cons_succ] at hr2
        norm_num [range_five] at hr2
        split at hr2
        · rename_i hgt
          rw [hr2]
          refine ⟨?_, by simp⟩
          simp only [List.sum_cons, List.sum_nil]
          linear_combination scale_sum b (a + c + d + e) (max 0 (min 1 v)) (by linarith)
            (ne_of_gt (by linarith))
        · rw [hr2]
          refine ⟨?_, by simp⟩
          simp only [List.sum_cons, List.sum_nil]
          linear_combination even_sum4 (max 0 (min 1 v))
      · simp only [List.set, List.length_cons, List.length_nil, List.getD_cons_zero,
          List.getD_cons_succ] at hr2
        norm_num [range_five] at hr2
        split at hr2
        · rename_i hgt
          rw [hr2]
          refine ⟨?_, by simp⟩
          simp only [List.sum_cons, List.sum_nil]
          linear_combination scale_sum c (a + b + d + e) (max 0 (min 1 v)) (by linarith)
            (ne_of_gt (by linarith))
        · rw [hr2]
          refine ⟨?_, by simp⟩
          simp only [List.sum_cons, List.sum_nil]
          linear_combination even_sum4 (max 0 (min 1 v))
      · simp only [List.set, List.length_cons, List.length_nil, List.getD_cons_zero,
          List.getD_cons_succ] at hr2
        norm_num [range_five] at hr2
        split at hr2
        · rename_i hgt
          rw [hr2]
          refine ⟨?_, by simp⟩
          simp only [List.sum_cons, List.sum_nil]
          linear_combination scale_sum d (a + b + c + e) (max 0 (min 1 v)) (by linarith)
            (ne_of_gt (by linarith))
        · rw [hr2]
          refine ⟨?_, by simp⟩
          simp only [List.sum_cons, List.sum_nil]
          linear_combination even_sum4 (max 0 (min 1 v))
      · simp only [List.set, List.length_cons, List.length_nil, List.getD_cons_zero,
          List.getD_cons_succ] at hr2
        norm_num [range_five] at hr2
        split at hr2
        · rename_i hgt
          rw [hr2]
          refine ⟨?_, by simp⟩
          simp only [List.sum_cons, List.sum_nil]
          linear_combination scale_sum e (a + b + c + d) (max 0 (min 1 v)) (by linarith)
            (ne_of_gt (by linarith))
        · rw [hr2]
          refine ⟨?_, by simp⟩
          simp only [List.sum_cons, List.sum_nil]
          linear_combination even_sum4 (max 0 (min 1 v))
    rw [hstep]
    refine ⟨?_, ?_, fun k hk => getDrow_set_ne _ _ _ _ hk⟩
    · rw [getDrow_set_eq _ _ _ hi]
      have k2 := key _ rfl
      rw [normalizeRow_eq_self _ k2.1]
      exact k2.1
    · rw [getDrow_set_eq _ _ _ hi]
      have k2 := key _ rfl
      rw [normalizeRow_eq_self _ k2.1]
      exact k2.2

/-- Claim C3, counterexample to the original statement: on the all-zero
5×5 matrix, editing entry (0,0) to 0 hits the early-return branch and the
returned row 0 still sums to 0, not 1. -/
theorem updateMatrixProbability_counterexample :
    ¬ ((updateMatrixProbability (List.replicate 5 (List.replicate 5 (0:ℚ))) 0 0 0).getD 0
        []).sum = 1 := by
  with_unfolding_all decide

/-- Witness for `updateMatrixProbability_spec` at a concrete stochastic row. -/
theorem updateMatrixProbability_spec_witness :
    ((updateMatrixProbability [[mkRat 1 5, mkRat 1 5, mkRat 1 5, mkRat 1 5, mkRat 1 5]]
        0 1 (mkRat 1 2)).getD 0 []).sum = 1 ∧
    ((updateMatrixProbability [[mkRat 1 5, mkRat 1 5, mkRat 1 5, mkRat 1 5, mkRat 1 5]]
        0 1 (mkRat 1 2)).getD 0 []).getD 1 0 = max 0 (min 1 (mkRat 1 2)) ∧
    ∀ k, k ≠ 0 →
      (updateMatrixProbability [[mkRat 1 5, mkRat 1 5, mkRat 1 5, mkRat 1 5, mkRat 1 5]]
        0 1 (mkRat 1 2)).getD k [] =
      ([[mkRat 1 5, mkRat 1 5, mkRat 1 5, mkRat 1 5, mkRat 1 5]] : Matrix).getD k [] :=
  updateMatrixProbability_spec _ 0 1 _ (by decide) (by decide) (by decide)
    (by with_unfolding_all decide)

/-! ## C1: equilibria of the default wealth configuration -/

set_option maxRecDepth 40000 in
theorem c1scan0 : (List.range' 0 100).foldl (scanStep defaultWealthConfig)
    (-1, [⟨0, EqType.Stable⟩]) = (-1, [⟨0, EqType.Stable⟩]) := by
  with_unfolding_all decide

set_option maxRecDepth 40000 in
theorem c1scan1 : (List.range' 100 100).foldl (scanStep defaultWealthConfig)
    (-1, [⟨0, EqType.Stable⟩]) = (-1, [⟨0, EqType.Stable⟩]) := by
  with_unfolding_all decide

set_option maxRecDepth 40000 in
theorem c1scan2 : (List.range' 200 100).foldl (scanStep defaultWealthConfig)
    (-1, [⟨0, EqType.Stable⟩]) = (-1, [⟨0, EqType.Stable⟩]) := by
  with_unfolding_all decide

set_option maxRecDepth 40000 in
theorem c1scan3 : (List.range' 300 100).foldl (scanStep defaultWealthConfig)
    (-1, [⟨0, EqType.Stable⟩]) = (-1, [⟨0, EqType.Stable⟩]) := by
  with_unfolding_all decide

set_option maxRecDepth 40000 in
theorem c1scan4 : (List.range' 400 100).foldl (scanStep defaultWealthConfig)
    (-1, [⟨0, EqType.Stable⟩]) = (-1, [⟨0, EqType.Stable⟩]) := by
  with_unfolding_all decide

set_option maxRecDepth 40000 in
theorem c1_findEquilibria : findEquilibria defaultWealthConfig = [⟨0, EqType.Stable⟩] := by
  have hsgn : sgn (netGrowth defaultWealthConfig (1/100)) = -1 := by
    with_unfolding_all decide
  have hsplit : List.range' 0 500 = List.range' 0 100 ++ (List.range' 100 100 ++
      (List.range' 200 100 ++ (List.range' 300 100 ++ List.range' 400 100))) := by
    rfl
  show ((List.range 500).foldl (scanStep defaultWealthConfig)
    (sgn (netGrowth defaultWealthConfig (1/100)), [⟨0, EqType.Stable⟩])).2 = _
  rw [hsgn, List.range_eq_range', hsplit, List.foldl_append, c1scan0, List.foldl_append,
    c1scan1, List.foldl_append, c1scan2, List.foldl_append, c1scan3, c1scan4]

/-- Claim C1, counterexample to the original statement: with the default
configuration the equilibrium finder returns a single equilibrium (only
`k = 0`), not three. -/
theorem findEquilibria_counterexample :
    ¬ ((findEquilibria defaultWealthConfig).length = 3) := by
  rw [c1_findEquilibria]
  decide

/-- Claim C1 (amended): with the default configuration `A=8, s=0.2, H=10,
γ=3, δ=0.1` the equilibrium finder returns only the equilibrium `k = 0`
(tagged Stable); indeed the net growth `s·A·k^γ/(H^γ+k^γ) − δ·k` is
strictly negative on the whole scanned range `0 < k ≤ 50`, so there is no
interior root at all. -/
theorem findEquilibria_default_spec :
    findEquilibria defaultWealthConfig = [⟨0, EqType.Stable⟩] ∧
    ∀ k : ℚ, 0 < k → k ≤ 50 → netGrowth defaultWealthConfig k < 0 := by
  refine ⟨c1_findEquilibria, fun k hk _hk50 => ?_⟩
  have hden : (0:ℚ) < 10 ^ 3 + k ^ 3 := by positivity
  have hpos : 0 < k ^ 3 - 16 * k ^ 2 + 1000 := by
    nlinarith [mul_nonneg (sq_nonneg (3 * k - 32)) (show (0:ℚ) ≤ 3 * k + 16 by linarith)]
  show (2/10 : ℚ) * 8 * (k ^ 3 / (10 ^ 3 + k ^ 3)) - 1/10 * k < 0
  rw [show (2/10 : ℚ) * 8 * (k ^ 3 / (10 ^ 3 + k ^ 3)) = 8/5 * k ^ 3 / (10 ^ 3 + k ^ 3)
    from by ring, sub_neg, div_lt_iff₀ hden]
  nlinarith [mul_pos hk hpos]

/-- Witness for `findEquilibria_default_spec` at the interior point `k = 1`. -/
theorem findEquilibria_default_spec_witness :
    findEquilibria defaultWealthConfig = [⟨0, EqType.Stable⟩] ∧
    netGrowth defaultWealthConfig 1 < 0 :=
  ⟨findEquilibria_default_spec.1,
    findEquilibria_default_spec.2 1 (by norm_num) (by norm_num)⟩

/-! ## C2: steady-state solver on arbitrary row-stochastic matrices -/

/-- Reducible negation: `qneg a = -a`. -/
def qneg (a : ℚ) : ℚ := mkRat (-a.num) a.den

/-- Reducible subtraction: `qsub a b = a - b`. -/
def qsub (a b : ℚ) : ℚ := qadd a (qneg b)

/-- Reducible absolute value: `qabs a = |a|`. -/
def qabs (a : ℚ) : ℚ := if a < 0 then qneg a else a

/-- Reducible inverse: `qinv a = a⁻¹`. -/
def qinv (a : ℚ) : ℚ :=
  if a.num < 0 then mkRat (-(a.den : ℤ)) a.num.natAbs
  else mkRat (a.den : ℤ) a.num.natAbs

/-- Reducible division: `qdiv a b = a / b`. -/
def qdiv (a b : ℚ) : ℚ := qmul a (qinv b)

theorem qneg_eq (a : ℚ) : qneg a = -a := by
  rw [qneg, Rat.mkRat_eq_divInt, Rat.divInt_eq_div]
  have ha : ((a.den : ℤ) : ℚ) ≠ 0 := by
    exact_mod_cast Nat.cast_ne_zero.mpr a.den_nz
  have hnd := Rat.num_div_den a
  push_cast at *
  field_simp

theorem qsub_eq (a b : ℚ) : qsub a b = a - b := by
  rw [qsub, qadd_eq, qneg_eq, sub_eq_add_neg]

theorem qabs_eq (a : ℚ) : qabs a = |a| := by
  rw [qabs, qneg_eq]
  rcases lt_or_le a 0 with h | h
  · rw [if_pos h, abs_of_neg h]
  · rw [if_neg (not_lt.mpr h), abs_of_nonneg h]

theorem qinv_eq (a : ℚ) : qinv a = a⁻¹ := by
  by_cases h0 : a = 0
  · rw [h0, inv_zero]
    decide
  · have hnum : a.num ≠ 0 := Rat.num_ne_zero.mpr h0
    have hd : ((a.den : ℚ)) ≠ 0 := by
      exact_mod_cast a.den_nz
    have hn : ((a.num : ℚ)) ≠ 0 := by
      exact_mod_cast hnum
    have hnd := Rat.num_div_den a
    have hmul : ((a.num : ℚ)) = a * (a.den : ℚ) := (div_eq_iff hd).mp hnd
    refine (eq_inv_of_mul_eq_one_left ?_).symm |>.symm
    rw [qinv]
    split
    · rename_i hneg
      have hnab : (a.num.natAbs : ℤ) = -a.num := by omega
      rw [Rat.mkRat_eq_divInt, Rat.divInt_eq_div, hnab]
      push_cast
      field_simp
    · rename_i hpos
      have hnab : (a.num.natAbs : ℤ) = a.num := by omega
      rw [Rat.mkRat_eq_divInt, Rat.divInt_eq_div, hnab]
      push_cast
      field_simp

theorem qdiv_eq (a b : ℚ) : qdiv a b = a / b := by
  rw [qdiv, qmul_eq, qinv_eq, div_eq_mul_inv]

/-- Reducible clone of `pivotSearch`. -/
def pivotSearchQ (M : Matrix) (i : ℕ) : ℕ :=
  (List.range' (i + 1) (M.length - (i + 1))).foldl
    (fun p j => if qabs ((M.getD j []).getD i 0) > qabs ((M.getD p []).getD i 0)
      then j else p) i

/-- Reducible clone of `elimStep`. -/
def qelimStep (n : ℕ) (M : Matrix) (i : ℕ) : Matrix :=
  let p := pivotSearchQ M i
  let M1 := swapRows M i p
  let pivotVal := (M1.getD i []).getD i 0
  if qabs pivotVal < mkRat 1 10000000000 then M1 else
  let M2 := M1.set i ((M1.getD i []).mapIdx
    (fun j x => if i ≤ j then qdiv x pivotVal else x))
  (List.range n).foldl
    (fun Mc k =>
      if k = i then Mc else
      let factor := (Mc.getD k []).getD i 0
      Mc.set k ((Mc.getD k []).mapIdx
        (fun j x => if i ≤ j then qsub x (qmul factor ((M2.getD i []).getD j 0)) else x)))
    M2

/-- Reducible clone of `solveLinearSystem`. -/
def qsolveLinearSystem (A : Matrix) (b : Vec) : Vec :=
  let n := A.length
  let M0 : Matrix := A.mapIdx (fun i row => row ++ [b.getD i 0])
  let M := (List.range n).foldl (fun M i => qelimStep n M i) M0
  M.map (fun row => row.getD n 0)

/-- Reducible clone of `calculateSteadyState`. -/
def qcalculateSteadyState (matrix : Matrix) : Vec :=
  let n := matrix.length
  let A : Matrix := (List.range n).map (fun i => (List.range n).map (fun j =>
    if i = n - 1 then 1
    else qsub ((matrix.getD j []).getD i 0) (if i = j then 1 else 0)))
  let b : Vec := (List.range n).map (fun i => if i = n - 1 then 1 else 0)
  qsolveLinearSystem A b

theorem threshold_eq : (mkRat 1 10000000000 : ℚ) = 1 / 10 ^ 10 := by
  rw [Rat.mkRat_eq_divInt, Rat.divInt_eq_div]
  norm_num

theorem pivotSearchQ_eq (M : Matrix) (i : ℕ) : pivotSearchQ M i = pivotSearch M i := by
  unfold pivotSearchQ pivotSearch
  simp only [qabs_eq]

theorem qelimStep_eq (n : ℕ) (M : Matrix) (i : ℕ) : qelimStep n M i = elimStep n M i := by
  unfold qelimStep elimStep
  simp only [pivotSearchQ_eq, qabs_eq, qdiv_eq, qsub_eq, qmul_eq, threshold_eq]

theorem qsolveLinearSystem_eq (A : Matrix) (b : Vec) :
    qsolveLinearSystem A b = solveLinearSystem A b := by
  unfold qsolveLinearSystem solveLinearSystem
  simp only [qelimStep_eq]

theorem qcalculateSteadyState_eq (m : Matrix) :
    qcalculateSteadyState m = calculateSteadyState m := by
  unfold qcalculateSteadyState calculateSteadyState
  simp only [qsub_eq, qsolveLinearSystem_eq]


/-- The baseline matrix as an `mkRat` literal (kernel-reducible form). -/
def baselineQ : Matrix :=
  [[mkRat 9 10, mkRat 9 100, mkRat 1 100, mkRat 0 1, mkRat 0 1],
   [mkRat 15 100, mkRat 7 10, mkRat 14 100, mkRat 1 100, mkRat 0 1],
   [mkRat 1 100, mkRat 2 10, mkRat 6 10, mkRat 18 100, mkRat 1 100],
   [mkRat 0 1, mkRat 5 100, mkRat 2 10, mkRat 6 10, mkRat 15 100],
   [mkRat 0 1, mkRat 0 1, mkRat 1 10, mkRat 4 10, mkRat 5 10]]

theorem baselineQ_eq : createBaselineMatrix = baselineQ := by
  with_unfolding_all decide

/-- The exact steady state of the baseline matrix, as computed by the
solver. -/
def c2pi : Vec :=
  [mkRat 106450 264027, mkRat 22640 88009, mkRat 45700 264027,
   mkRat 33110 264027, mkRat 10847 264027]

set_option maxRecDepth 100000 in
theorem c2pi_eq : calculateSteadyState createBaselineMatrix = c2pi := by
  rw [baselineQ_eq, ← qcalculateSteadyState_eq]
  decide

set_option maxRecDepth 100000 in
theorem c2pi_fixed : multiplyVectorMatrix c2pi createBaselineMatrix = c2pi := by
  rw [baselineQ_eq, ← vmulQ_eq]
  decide

theorem c2pi_sum : c2pi.sum = 1 := by
  rw [← foldr_qadd_eq]
  decide

/-- L1 distance between two equal-length vectors. -/
def l1Dist (v w : Vec) : ℚ :=
  ((List.zip v w).map (fun p => |p.1 - p.2|)).sum

/-- A row-stochastic 5×5 matrix with one strictly positive but sub-pivot
(`< 1e-10`) entry; on it partial pivoting skips a nonzero column and the
computed vector is not a steady state. -/
def c2Pbad : Matrix :=
  [[mkRat 99999999991 100000000000, 0, mkRat 9 100000000000, 0, 0],
   [0, 1, 0, 0, 0],
   [0, 0, 0, 1, 0],
   [0, 0, 0, 0, 1],
   [0, 0, 1, 0, 0]]

/-- The vector the solver actually returns on `c2Pbad`. -/
def c2piBad : Vec := [0, mkRat 1 2, mkRat 1 2, mkRat 1 2, 0]

set_option maxRecDepth 100000 in
theorem c2piBad_eq : calculateSteadyState c2Pbad = c2piBad := by
  rw [← qcalculateSteadyState_eq]
  decide

/-- Claim C2, counterexample to the original statement: `c2Pbad` is
row-stochastic, yet the vector returned by `calculateSteadyState` neither
sums to 1 (its sum is 3/2) nor satisfies `π·P ≈ π` within L1 error 1e-6
(the error is 1). -/
theorem calculateSteadyState_counterexample :
    isRowStochastic c2Pbad ∧
    ¬ ((calculateSteadyState c2Pbad).sum = 1 ∧
       l1Dist (multiplyVectorMatrix (calculateSteadyState c2Pbad) c2Pbad)
         (calculateSteadyState c2Pbad) < 1/1000000) := by
  refine ⟨by unfold isRowStochastic; with_unfolding_all decide, ?_⟩
  rw [c2piBad_eq]
  exact fun h => absurd h.1 (by with_unfolding_all decide)

/-- Claim C2 (amended): on the engine's baseline matrix the solver is
exact — the returned vector is a fixed point of the chain and sums to 1. -/
theorem calculateSteadyState_baseline_spec :
    multiplyVectorMatrix (calculateSteadyState createBaselineMatrix) createBaselineMatrix
      = calculateSteadyState createBaselineMatrix ∧
    (calculateSteadyState createBaselineMatrix).sum = 1 := by
  rw [c2pi_eq]
  exact ⟨c2pi_fixed, c2pi_sum⟩

/-! ## C4: absorbing path simulation -/

/-- Claim C4, counterexample to the original statement: at
`effort = risk = 0` with lock-in active, the mass on the top state after
500 steps differs from 1 by about 1.42e-3, well above the 1e-6 tolerance. -/
theorem runPathSimulation_counterexample :
    ¬ (|(runPathSimulation ⟨0, 0, true⟩).finalDist.getD 4 0 - 1| < 1/1000000) := by
  rw [c4_final_dist]
  with_unfolding_all decide

/-- Claim C4 (amended): with lock-in active the long-run distribution is, for
every `effort` and `risk`, the one-hot bottom vector advanced 500 steps
through the generated matrix; at the weakest setting `effort = risk = 0` the
resulting top-state mass is within 2e-3 of 1 (but not within 1e-6). -/
theorem runPathSimulation_absorbing_spec :
    (∀ e r : ℚ, (runPathSimulation ⟨e, r, true⟩).finalDist =
        iterMul (generateParametricMatrix ⟨e, r, true⟩) 500 [1, 0, 0, 0, 0]) ∧
    |(runPathSimulation ⟨0, 0, true⟩).finalDist.getD 4 0 - 1| < 2/1000 := by
  constructor
  · intro e r
    simp only [runPathSimulation, if_pos]
  · rw [c4_final_dist]
    with_unfolding_all decide

end Engine
